import Mathlib

/-!
# Fire-Simulation: the scripted scene state machine

A shallow embedding of the update pass of `main.cpp` (`updateSimulation`,
`updateHumans`, `updateFireTrucks`, `updateFireParticles` and the sound
helpers they call) and of the two places of the drawing pass that read
`burningWindow` (`drawBuilding`, `drawFireTruck`), followed by theorems about
them.

Modelling conventions.

* The globals of `main.cpp` are the fields of `State`; every C++ function that
  mutates them is a function `State → State`.
* `float` values are exact rationals (`ℚ`): `0.8f` is `4/5`, `0.5f` is `1/2`,
  `1.5f` is `3/2`.  Rounding is not modelled, except in `roundBinary32` and
  `truckLeaveBinary32`, which give the binary32 result of `truck.x += 1.5f`.
* `rand()` is a fixed stream `World.rand : ℕ → ℕ` of non-negative values; the
  field `State.randCalls` counts the calls made so far, so the `k`-th call
  returns `World.rand k`.
* `sin` is the function `World.sin : ℚ → ℚ`, a parameter (it belongs to the
  C library, and only the horizontal drift of a particle depends on it).
* Whether a cue can be started (`checkSoundFile` finds the file and
  `PlaySoundA` succeeds) is an input of the call, carried by `Frame`.
* `alarmBlinking` and `alarmBlinkTimer` are written by `drawAlarm` only and
  read by no update function; they are not part of `State`.
-/

namespace FireSim

/-- Stages of the scene, the enumeration `SimState` of `main.cpp`. -/
inductive SimState where
  | NORMAL
  | FIRE_START
  | ALARM
  | HUMANS_ARRIVE
  | FIREFIGHTERS_ARRIVE
  | EXTINGUISHING
  | ALL_CLEAR
  | TRUCKS_LEAVING
  deriving DecidableEq, Repr

open SimState

/-- Enumerator value of a stage (C++ numbers the enumerators from 0). -/
def SimState.toNat : SimState → Nat
  | NORMAL => 0
  | FIRE_START => 1
  | ALARM => 2
  | HUMANS_ARRIVE => 3
  | FIREFIGHTERS_ARRIVE => 4
  | EXTINGUISHING => 5
  | ALL_CLEAR => 6
  | TRUCKS_LEAVING => 7

instance : LE SimState := ⟨fun a b => a.toNat ≤ b.toNat⟩

instance : LT SimState := ⟨fun a b => a.toNat < b.toNat⟩

instance (a b : SimState) : Decidable (a ≤ b) :=
  inferInstanceAs (Decidable (a.toNat ≤ b.toNat))

instance (a b : SimState) : Decidable (a < b) :=
  inferInstanceAs (Decidable (a.toNat < b.toNat))

/-- The struct `FireParticle`. -/
structure FireParticle where
  x : ℚ
  y : ℚ
  velocity : ℚ
  life : ℚ
  size : ℚ
  windowIndex : Int
  deriving DecidableEq

/-- The struct `FireTruck`. -/
structure FireTruck where
  x : ℚ
  arrived : Bool
  spraying : Bool
  leaving : Bool
  deriving DecidableEq

/-- The global variables read or written by the update pass. -/
structure State where
  currentState : SimState
  simTime : ℚ
  fireParticles : List FireParticle
  eventLog : List String
  burningWindow : Int
  truck1 : FireTruck
  truck2 : FireTruck
  humanPosition : ℚ
  alarmSoundPlaying : Bool
  truckSoundPlaying : Bool
  waterSoundPlaying : Bool
  /-- Number of calls of `rand()` made so far. -/
  randCalls : Nat
  deriving DecidableEq

/-- What the program takes from outside and does not change. -/
structure World where
  /-- The `k`-th value returned by `rand()`. -/
  rand : Nat → Nat
  /-- The library function `sin`. -/
  sin : ℚ → ℚ

/-- Inputs of one call of `updateSimulation`. -/
structure Frame where
  deltaTime : ℚ
  /-- Result of `checkSoundFile` for a cue started in this call. -/
  soundFileFound : Bool
  /-- Whether `PlaySoundA` succeeds for a cue started in this call. -/
  playSoundSucceeds : Bool

/-- The initial values of the globals, with the two log lines `init` pushes. -/
def initialState : State where
  currentState := NORMAL
  simTime := 0
  fireParticles := []
  eventLog := ["System: Simulation started", "System: Normal operation"]
  burningWindow := -1
  truck1 := ⟨-100, false, false, false⟩
  truck2 := ⟨-150, false, false, false⟩
  humanPosition := 800
  alarmSoundPlaying := false
  truckSoundPlaying := false
  waterSoundPlaying := false
  randCalls := 0

/-! ## Sound helpers -/

def playAlarmSound (s : State) (f : Frame) : State :=
  if s.alarmSoundPlaying = false then
    if f.soundFileFound then
      if f.playSoundSucceeds = false then s
      else { s with alarmSoundPlaying := true }
    else s
  else s

def stopAlarmSound (s : State) : State :=
  { s with alarmSoundPlaying := false }

def playTruckSound (s : State) (f : Frame) : State :=
  if s.truckSoundPlaying = false then
    if f.soundFileFound then
      if f.playSoundSucceeds = false then s
      else { s with truckSoundPlaying := true }
    else s
  else s

def stopTruckSound (s : State) : State :=
  { s with truckSoundPlaying := false }

def playWaterSound (s : State) (f : Frame) : State :=
  if s.waterSoundPlaying = false then
    if f.soundFileFound then
      if f.playSoundSucceeds = false then s
      else { s with waterSoundPlaying := true }
    else s
  else s

def stopWaterSound (s : State) : State :=
  { s with waterSoundPlaying := false }

/-! ## Particles -/

/-- Body of the range-for loop of `updateFireParticles`: one particle moved
and aged (`p.y` first, then `p.x` from the old `p.x`, then `p.life`). -/
def ageParticle (w : World) (simTime deltaTime : ℚ) (p : FireParticle) : FireParticle :=
  { p with
    y := p.y + p.velocity * deltaTime * 50
    x := p.x + w.sin (simTime * 2 + p.x) * (1 / 2) * deltaTime * 50
    life := p.life - 1 / 2 * deltaTime }

/-- The particle built by one pass of the spawn loop, when `k` calls of
`rand()` were made before it; it makes five calls, in statement order. -/
def newParticle (w : World) (winX winY : ℚ) (burningWindow : Int) (k : Nat) : FireParticle where
  x := winX + (((w.rand k % 100 : Nat) : Int) - 50 : Int) / 20
  y := winY + ((w.rand (k + 1) % 100 : Nat) : ℚ) / 20
  velocity := 1 / 2 + ((w.rand (k + 2) % 100 : Nat) : ℚ) / 100
  life := 1 / 2 + ((w.rand (k + 3) % 100 : Nat) : ℚ) / 200
  size := 2 + ((w.rand (k + 4) % 10 : Nat) : ℚ) / 5
  windowIndex := burningWindow

/-- The loop `for (int i = 0; i < 5; i++)` with `n` passes left. -/
def spawnLoop (w : World) (winX winY : ℚ) : Nat → State → State
  | 0, s => s
  | n + 1, s =>
    spawnLoop w winX winY n
      { s with
        fireParticles := s.fireParticles ++ [newParticle w winX winY s.burningWindow s.randCalls]
        randCalls := s.randCalls + 5 }

def updateFireParticles (w : World) (s : State) (deltaTime : ℚ) : State :=
  -- Remove dead particles
  let s := { s with fireParticles := s.fireParticles.filter (fun p => !decide (p.life ≤ 0)) }
  -- Update existing particles
  let s := { s with fireParticles := s.fireParticles.map (ageParticle w s.simTime deltaTime) }
  -- Add new particles if fire is active
  if FIRE_START ≤ s.currentState ∧ s.currentState < ALL_CLEAR ∧ s.burningWindow ≠ -1 then
    let windowsPerFloor : Int := 5
    let floor : Int := Int.tdiv s.burningWindow windowsPerFloor
    let col : Int := Int.tmod s.burningWindow windowsPerFloor
    let windowWidth : ℚ := 100 / ((windowsPerFloor + 1 : Int) : ℚ)
    let floorHeight : ℚ := 150 / 5
    let winX : ℚ := 300 + ((col : ℚ) + 1 / 2) * windowWidth
    let winY : ℚ := 400 - ((floor : ℚ) + 1 / 2) * floorHeight
    spawnLoop w winX winY 5 s
  else s

/-! ## Actors -/

/-- The first `if` / `else if` chain of `updateFireTrucks` ("Truck 1 logic"). -/
def truck1Logic (s : State) : State :=
  if s.currentState = FIREFIGHTERS_ARRIVE ∧ s.truck1.arrived = false then
    let s := { s with truck1 := { s.truck1 with x := min 200 (s.truck1.x + 4 / 5) } }
    if 200 ≤ s.truck1.x then { s with truck1 := { s.truck1 with arrived := true } } else s
  else if s.currentState = EXTINGUISHING ∧ s.truck1.arrived = true then
    { s with truck1 := { s.truck1 with spraying := true } }
  else if s.currentState = TRUCKS_LEAVING ∧ s.truck1.leaving = false then
    { s with truck1 := { s.truck1 with spraying := false, leaving := true } }
  else s

/-- The statement `if (truck1.leaving) { truck1.x += 1.5f; }`. -/
def truck1Leave (s : State) : State :=
  if s.truck1.leaving = true then { s with truck1 := { s.truck1 with x := s.truck1.x + 3 / 2 } }
  else s

/-- The second `if` / `else if` chain of `updateFireTrucks` ("Truck 2 logic"). -/
def truck2Logic (s : State) : State :=
  if s.currentState = FIREFIGHTERS_ARRIVE ∧ 150 < s.truck1.x ∧ s.truck2.arrived = false then
    let s := { s with truck2 := { s.truck2 with x := min 250 (s.truck2.x + 4 / 5) } }
    if 250 ≤ s.truck2.x then { s with truck2 := { s.truck2 with arrived := true } } else s
  else if s.currentState = EXTINGUISHING ∧ s.truck2.arrived = true then
    { s with truck2 := { s.truck2 with spraying := true } }
  else if s.currentState = TRUCKS_LEAVING ∧ s.truck2.leaving = false then
    { s with truck2 := { s.truck2 with spraying := false, leaving := true } }
  else s

/-- The statement `if (truck2.leaving) { truck2.x += 1.5f; }`. -/
def truck2Leave (s : State) : State :=
  if s.truck2.leaving = true then { s with truck2 := { s.truck2 with x := s.truck2.x + 3 / 2 } }
  else s

/-- The four statements of `updateFireTrucks`, in order. -/
def updateFireTrucks (s : State) (_deltaTime : ℚ) : State :=
  truck2Leave (truck2Logic (truck1Leave (truck1Logic s)))

def updateHumans (s : State) (_deltaTime : ℚ) : State :=
  if HUMANS_ARRIVE ≤ s.currentState ∧ s.currentState < FIREFIGHTERS_ARRIVE then
    { s with humanPosition := max 350 (s.humanPosition - 1 / 2) }
  else s

/-! ## The stage machine -/

/-- The `if` / `else if` chain of `updateSimulation` (its "State transitions"
part), run after `simTime` has been advanced. -/
def stateTransitions (w : World) (s : State) (f : Frame) : State :=
  if s.currentState = NORMAL ∧ 3 < s.simTime then
    { s with
      currentState := FIRE_START
      burningWindow := ((w.rand s.randCalls % 15 : Nat) : Int)
      randCalls := s.randCalls + 1
      eventLog := s.eventLog ++ ["ALERT: Fire detected in building!"] }
  else if s.currentState = FIRE_START ∧ 6 < s.simTime then
    playAlarmSound
      { s with currentState := ALARM, eventLog := s.eventLog ++ ["ALERT: Alarm activated!"] } f
  else if s.currentState = ALARM ∧ 9 < s.simTime then
    { s with
      currentState := HUMANS_ARRIVE
      eventLog := s.eventLog ++ ["UPDATE: Emergency crew arriving"] }
  else if s.currentState = HUMANS_ARRIVE ∧ s.humanPosition ≤ 350 ∧ 12 < s.simTime then
    playTruckSound
      { s with
        currentState := FIREFIGHTERS_ARRIVE
        eventLog := s.eventLog ++ ["UPDATE: Firefighters dispatched"] } f
  else if s.currentState = FIREFIGHTERS_ARRIVE ∧ s.truck1.arrived = true ∧
      s.truck2.arrived = true ∧ 15 < s.simTime then
    playWaterSound
      { s with
        currentState := EXTINGUISHING
        eventLog := s.eventLog ++ ["UPDATE: Firefighters extinguishing fire"] } f
  else if s.currentState = EXTINGUISHING ∧ 25 < s.simTime then
    stopWaterSound (stopAlarmSound
      { s with
        currentState := ALL_CLEAR
        eventLog := s.eventLog ++ ["UPDATE: Fire extinguished!"] })
  else if s.currentState = ALL_CLEAR ∧ 28 < s.simTime then
    stopTruckSound
      { s with
        currentState := TRUCKS_LEAVING
        eventLog := s.eventLog ++ ["UPDATE: Firefighters leaving scene"] }
  else s

def updateSimulation (w : World) (s : State) (f : Frame) : State :=
  let s := { s with simTime := s.simTime + f.deltaTime }
  -- State transitions
  let s := stateTransitions w s f
  -- Update all elements
  let s := updateHumans s f.deltaTime
  let s := updateFireTrucks s f.deltaTime
  if FIRE_START ≤ s.currentState ∧ s.currentState < ALL_CLEAR then
    updateFireParticles w s f.deltaTime
  else s

/-! ## Rendering

Of the drawing functions, the part that reads `burningWindow`: the window
loop of `drawBuilding` and the water hose of `drawFireTruck`.  A drawing
function returns what it draws. -/

/-- One pass of the inner loop of `drawBuilding`: the loop indices, whether
the window gets the fire glow, and the centre and size from which the quad
`winX ± 0.4 * windowWidth`, `winY ± 0.5 * windowHeight` and its frame are
drawn. -/
structure Window where
  floor : Int
  col : Int
  isBurning : Bool
  winX : ℚ
  winY : ℚ
  windowWidth : ℚ
  windowHeight : ℚ
  deriving DecidableEq

/-- The windows `drawBuilding` draws, in the order of its two loops. -/
def drawBuilding (s : State) (index : Int) (x width height : ℚ) (floors windowsPerFloor : Int) :
    List Window :=
  let windowWidth : ℚ := width / ((windowsPerFloor + 1 : Int) : ℚ)
  let windowHeight : ℚ := height / ((floors + 1 : Int) : ℚ) * (3 / 5)
  let floorHeight : ℚ := height / (floors : ℚ)
  (List.range floors.toNat).flatMap fun floor =>
    (List.range windowsPerFloor.toNat).map fun col =>
      -- Determine if this window is on fire
      let isBurning : Bool :=
        decide (index = 0 ∧ FIRE_START ≤ s.currentState ∧ s.currentState < ALL_CLEAR ∧
          s.burningWindow = (floor : Int) * windowsPerFloor + (col : Int))
      let winX : ℚ := x + ((col : ℚ) + 1 / 2) * windowWidth
      let winY : ℚ := 400 - ((floor : ℚ) + 1 / 2) * floorHeight
      { floor := floor, col := col, isBurning := isBurning, winX := winX, winY := winY,
        windowWidth := windowWidth, windowHeight := windowHeight }

/-- The line `drawFireTruck` draws for the water hose. -/
structure HoseLine where
  startX : ℚ
  startY : ℚ
  targetX : ℚ
  targetY : ℚ
  deriving DecidableEq

/-- The water hose of `drawFireTruck` ("Water hose when spraying"), the one
part of it that reads `burningWindow`; the body, the cabin and the wheels are
drawn from `truck.x` alone. -/
def drawFireTruck (s : State) (truck : FireTruck) : Option HoseLine :=
  if truck.spraying = true then
    let windowsPerFloor : Int := 5
    let floor : Int := Int.tdiv s.burningWindow windowsPerFloor
    let col : Int := Int.tmod s.burningWindow windowsPerFloor
    let windowWidth : ℚ := 100 / ((windowsPerFloor + 1 : Int) : ℚ)
    let floorHeight : ℚ := 150 / 5
    let targetX : ℚ := 300 + ((col : ℚ) + 1 / 2) * windowWidth
    let targetY : ℚ := 400 - ((floor : ℚ) + 1 / 2) * floorHeight
    some ⟨truck.x + 30, 385, targetX, targetY⟩
  else none

/-- The anchor as the claim writes it, for the burning window `b`:
`(300 + (b mod 5 + 0.5) * 100/6, 400 - (b div 5 + 0.5) * 30)`. -/
def claimedAnchor (b : Int) : ℚ × ℚ :=
  (300 + (((b % 5 : Int) : ℚ) + 1 / 2) * (100 / 6), 400 - (((b / 5 : Int) : ℚ) + 1 / 2) * 30)

/-! ## Binary32

The one place where rounding is modelled: the sum `truck.x += 1.5f` of a
leaving truck, which decides whether the truck keeps moving. -/

/-- The state after the first `n` frames of the sequence `frames`, starting
from `s`: `idle` calls `updateSimulation` once per frame. -/
def run (w : World) (frames : Nat → Frame) : Nat → State → State
  | 0, s => s
  | n + 1, s => updateSimulation w (run w frames n s) (frames n)

/-- States the program can be in between two frames. -/
inductive Reachable (w : World) : State → Prop where
  | init : Reachable w initialState
  | step (s : State) (f : Frame) : Reachable w s → Reachable w (updateSimulation w s f)

/-! ## Concrete inputs

Used where a theorem is applied to, or refuted at, a particular run. -/

/-- A world for concrete runs: `rand()` returns 7 every time, `sin` is 0. -/
def world0 : World where
  rand := fun _ => 7
  sin := fun _ => 0

/-- A second world for concrete runs: `rand()` returns 7, 20, 33, ... and
`sin` is a stand-in that depends on its argument, with values in
`[-1/2, 1/2]`. -/
def world1 : World where
  rand := fun k => 7 + 13 * k
  sin := fun q => q / (1 + q * q)

/-- A frame of `d` seconds in which no cue can be started. -/
def silentFrame (d : ℚ) : Frame := ⟨d, false, false⟩

/-- The frame sequence of the worked run: one second per frame, no cue can
be started. -/
def secondFrames : Nat → Frame := fun _ => silentFrame 1

/-- A frame sequence in which no time passes. -/
def zeroFrames : Nat → Frame := fun _ => silentFrame 0

/-- The scripted run after the calls that bring `simTime` to 0, 3.1, 6.1 and
9.1. -/
def scriptAlarmed : State :=
  updateSimulation world0 (updateSimulation world0 (updateSimulation world0
    (updateSimulation world0 initialState (silentFrame 0)) (silentFrame (31 / 10)))
    (silentFrame 3)) (silentFrame 3)

/-- The scripted run once the humans have walked in: 899 more calls during
which no time passes. -/
def scriptHumansIn : State := run world0 zeroFrames 899 scriptAlarmed

/-- The scripted run once the trucks have driven in: the call that brings
`simTime` to 12.1, then 875 calls during which no time passes. -/
def scriptTrucksIn : State :=
  run world0 zeroFrames 875 (updateSimulation world0 scriptHumansIn (silentFrame 3))

/-! ## Auxiliary definitions

These are not part of the program.  Each restates a part of it in a form that
is easier to reason about, and a theorem of the next section ties it to the
code: `truckStep` by `updateFireTrucks_truck1` and `updateFireTrucks_truck2`,
`nextStage` and `State.stageAfter` by `updateSimulation_currentState`,
`beforeParticles` by `updateSimulation_eq`, `coreStep` by
`core_updateSimulation`.  `TruckInv` and `Inv` are the invariant, proved of
every reachable state in `Reachable.inv`. -/

/-- One truck's part of `updateFireTrucks`, the text the two trucks share:
`approach` is the first guard's extra condition (`true` for truck 1,
`truck1.x > 150` for truck 2) and `target` the stopping place. -/
def truckStep (cs : SimState) (approach : Bool) (target : ℚ) (t : FireTruck) : FireTruck :=
  let t :=
    if cs = FIREFIGHTERS_ARRIVE ∧ approach = true ∧ t.arrived = false then
      let t := { t with x := min target (t.x + 4 / 5) }
      if target ≤ t.x then { t with arrived := true } else t
    else if cs = EXTINGUISHING ∧ t.arrived = true then { t with spraying := true }
    else if cs = TRUCKS_LEAVING ∧ t.leaving = false then
      { t with spraying := false, leaving := true }
    else t
  if t.leaving = true then { t with x := t.x + 3 / 2 } else t

/-- The stage the transition chain selects, as a function of what its guards
read: the stage, the advanced `simTime`, `humanPosition` and the two
`arrived` flags. -/
def nextStage (cs : SimState) (t hp : ℚ) (a1 a2 : Bool) : SimState :=
  if cs = NORMAL ∧ 3 < t then FIRE_START
  else if cs = FIRE_START ∧ 6 < t then ALARM
  else if cs = ALARM ∧ 9 < t then HUMANS_ARRIVE
  else if cs = HUMANS_ARRIVE ∧ hp ≤ 350 ∧ 12 < t then FIREFIGHTERS_ARRIVE
  else if cs = FIREFIGHTERS_ARRIVE ∧ a1 = true ∧ a2 = true ∧ 15 < t then EXTINGUISHING
  else if cs = EXTINGUISHING ∧ 25 < t then ALL_CLEAR
  else if cs = ALL_CLEAR ∧ 28 < t then TRUCKS_LEAVING
  else cs

/-- The stage after `updateSimulation w s f`, written from the state before. -/
def State.stageAfter (s : State) (f : Frame) : SimState :=
  nextStage s.currentState (s.simTime + f.deltaTime) s.humanPosition s.truck1.arrived
    s.truck2.arrived

/-- The state of `updateSimulation` just before its last statement, the
conditional call of `updateFireParticles`. -/
def beforeParticles (w : World) (s : State) (f : Frame) : State :=
  updateFireTrucks (updateHumans (stateTransitions w
    { s with simTime := s.simTime + f.deltaTime } f) f.deltaTime) f.deltaTime

/-- The part of the state the stage machine and the actors read and write:
stage, time, `humanPosition` and the two trucks.  One call maps it without
looking at the particles, the log, the sound flags or `rand()`. -/
structure Core where
  stage : SimState
  simTime : ℚ
  humanPosition : ℚ
  truck1 : FireTruck
  truck2 : FireTruck
  deriving DecidableEq

/-- The core of a state. -/
def State.core (s : State) : Core :=
  ⟨s.currentState, s.simTime, s.humanPosition, s.truck1, s.truck2⟩

/-- What one call of `updateSimulation` with `deltaTime = d` does to the core
(see `core_updateSimulation`). -/
def coreStep (d : ℚ) (c : Core) : Core :=
  let cs := nextStage c.stage (c.simTime + d) c.humanPosition c.truck1.arrived c.truck2.arrived
  let t1 := truckStep cs true 200 c.truck1
  { stage := cs
    simTime := c.simTime + d
    humanPosition := if cs = HUMANS_ARRIVE then max 350 (c.humanPosition - 1 / 2)
      else c.humanPosition
    truck1 := t1
    truck2 := truckStep cs (decide (150 < t1.x)) 250 c.truck2 }

/-- The core after `n` calls with the same `deltaTime = d`. -/
def coreRun (d : ℚ) : Nat → Core → Core
  | 0, c => c
  | n + 1, c => coreStep d (coreRun d n c)

/-- What holds of a truck between two frames, stage by stage; `x0` is where
it starts and `target` where it stops. -/
def TruckInv (cs : SimState) (x0 target : ℚ) (t : FireTruck) : Prop :=
  (cs.toNat < 4 → t = ⟨x0, false, false, false⟩) ∧
  (cs = FIREFIGHTERS_ARRIVE →
    t.spraying = false ∧ t.leaving = false ∧ x0 ≤ t.x ∧
      (t.arrived = true → t.x = target) ∧ (t.arrived = false → t.x < target)) ∧
  (cs = EXTINGUISHING ∨ cs = ALL_CLEAR → t = ⟨target, true, true, false⟩) ∧
  (cs = TRUCKS_LEAVING →
    t.arrived = true ∧ t.spraying = false ∧ t.leaving = true ∧ target < t.x)

/-- The invariant of the scene: what holds in every reachable state. -/
structure Inv (s : State) : Prop where
  window_unset : s.currentState = NORMAL → s.burningWindow = -1
  window_set : s.currentState ≠ NORMAL → 0 ≤ s.burningWindow ∧ s.burningWindow < 15
  humans_lo : 350 ≤ s.humanPosition
  humans_hi : s.humanPosition ≤ 800
  truck1 : TruckInv s.currentState (-100) 200 s.truck1
  truck2 : TruckInv s.currentState (-150) 250 s.truck2
  convoy : s.truck2.x ≠ -150 → 150 < s.truck1.x

/-! ## Field-by-field description of one call -/

section fields

variable (w : World) (s : State) (f : Frame) (d x y : ℚ) (n : Nat)

@[simp] theorem spawnLoop_currentState :
    (spawnLoop w x y n s).currentState = s.currentState := by
  induction n generalizing s with
  | zero => rfl
  | succ n ih => simp [spawnLoop, ih]

@[simp] theorem spawnLoop_simTime : (spawnLoop w x y n s).simTime = s.simTime := by
  induction n generalizing s with
  | zero => rfl
  | succ n ih => simp [spawnLoop, ih]

@[simp] theorem spawnLoop_burningWindow :
    (spawnLoop w x y n s).burningWindow = s.burningWindow := by
  induction n generalizing s with
  | zero => rfl
  | succ n ih => simp [spawnLoop, ih]

@[simp] theorem spawnLoop_truck1 : (spawnLoop w x y n s).truck1 = s.truck1 := by
  induction n generalizing s with
  | zero => rfl
  | succ n ih => simp [spawnLoop, ih]

@[simp] theorem spawnLoop_truck2 : (spawnLoop w x y n s).truck2 = s.truck2 := by
  induction n generalizing s with
  | zero => rfl
  | succ n ih => simp [spawnLoop, ih]

@[simp] theorem spawnLoop_humanPosition :
    (spawnLoop w x y n s).humanPosition = s.humanPosition := by
  induction n generalizing s with
  | zero => rfl
  | succ n ih => simp [spawnLoop, ih]

theorem spawnLoop_randCalls : (spawnLoop w x y n s).randCalls = s.randCalls + 5 * n := by
  induction n generalizing s with
  | zero => rfl
  | succ n ih => simp [spawnLoop, ih]; ring

/-- The spawn loop appends its `n` particles, in order, to the list. -/
theorem spawnLoop_fireParticles :
    (spawnLoop w x y n s).fireParticles =
      s.fireParticles ++
        (List.range n).map (fun i => newParticle w x y s.burningWindow (s.randCalls + 5 * i)) := by
  induction n generalizing s with
  | zero => simp [spawnLoop]
  | succ n ih =>
    rw [spawnLoop, ih, List.range_succ_eq_map]
    simp [List.map_map, Function.comp_def, Nat.mul_succ, Nat.add_assoc, Nat.add_comm 5]

@[simp] theorem updateFireParticles_currentState :
    (updateFireParticles w s d).currentState = s.currentState := by
  unfold updateFireParticles; simp only []; split_ifs <;> simp

@[simp] theorem updateFireParticles_simTime :
    (updateFireParticles w s d).simTime = s.simTime := by
  unfold updateFireParticles; simp only []; split_ifs <;> simp

@[simp] theorem updateFireParticles_burningWindow :
    (updateFireParticles w s d).burningWindow = s.burningWindow := by
  unfold updateFireParticles; simp only []; split_ifs <;> simp

@[simp] theorem updateFireParticles_truck1 :
    (updateFireParticles w s d).truck1 = s.truck1 := by
  unfold updateFireParticles; simp only []; split_ifs <;> simp

@[simp] theorem updateFireParticles_truck2 :
    (updateFireParticles w s d).truck2 = s.truck2 := by
  unfold updateFireParticles; simp only []; split_ifs <;> simp

@[simp] theorem updateFireParticles_humanPosition :
    (updateFireParticles w s d).humanPosition = s.humanPosition := by
  unfold updateFireParticles; simp only []; split_ifs <;> simp

theorem truck1Logic_rest :
    (truck1Logic s).currentState = s.currentState ∧ (truck1Logic s).simTime = s.simTime ∧
    (truck1Logic s).burningWindow = s.burningWindow ∧
    (truck1Logic s).humanPosition = s.humanPosition ∧
    (truck1Logic s).fireParticles = s.fireParticles ∧
    (truck1Logic s).randCalls = s.randCalls ∧ (truck1Logic s).truck2 = s.truck2 := by
  unfold truck1Logic; simp only []; split_ifs <;> simp

theorem truck1Leave_rest :
    (truck1Leave s).currentState = s.currentState ∧ (truck1Leave s).simTime = s.simTime ∧
    (truck1Leave s).burningWindow = s.burningWindow ∧
    (truck1Leave s).humanPosition = s.humanPosition ∧
    (truck1Leave s).fireParticles = s.fireParticles ∧
    (truck1Leave s).randCalls = s.randCalls ∧ (truck1Leave s).truck2 = s.truck2 := by
  unfold truck1Leave; split_ifs <;> simp

theorem truck2Logic_rest :
    (truck2Logic s).currentState = s.currentState ∧ (truck2Logic s).simTime = s.simTime ∧
    (truck2Logic s).burningWindow = s.burningWindow ∧
    (truck2Logic s).humanPosition = s.humanPosition ∧
    (truck2Logic s).fireParticles = s.fireParticles ∧
    (truck2Logic s).randCalls = s.randCalls ∧ (truck2Logic s).truck1 = s.truck1 := by
  unfold truck2Logic; simp only []; split_ifs <;> simp

theorem truck2Leave_rest :
    (truck2Leave s).currentState = s.currentState ∧ (truck2Leave s).simTime = s.simTime ∧
    (truck2Leave s).burningWindow = s.burningWindow ∧
    (truck2Leave s).humanPosition = s.humanPosition ∧
    (truck2Leave s).fireParticles = s.fireParticles ∧
    (truck2Leave s).randCalls = s.randCalls ∧ (truck2Leave s).truck1 = s.truck1 := by
  unfold truck2Leave; split_ifs <;> simp

@[simp] theorem updateFireTrucks_currentState :
    (updateFireTrucks s d).currentState = s.currentState := by
  simp [updateFireTrucks, truck1Logic_rest, truck1Leave_rest, truck2Logic_rest, truck2Leave_rest]

@[simp] theorem updateFireTrucks_simTime : (updateFireTrucks s d).simTime = s.simTime := by
  simp [updateFireTrucks, truck1Logic_rest, truck1Leave_rest, truck2Logic_rest, truck2Leave_rest]

@[simp] theorem updateFireTrucks_burningWindow :
    (updateFireTrucks s d).burningWindow = s.burningWindow := by
  simp [updateFireTrucks, truck1Logic_rest, truck1Leave_rest, truck2Logic_rest, truck2Leave_rest]

@[simp] theorem updateFireTrucks_humanPosition :
    (updateFireTrucks s d).humanPosition = s.humanPosition := by
  simp [updateFireTrucks, truck1Logic_rest, truck1Leave_rest, truck2Logic_rest, truck2Leave_rest]

@[simp] theorem updateFireTrucks_fireParticles :
    (updateFireTrucks s d).fireParticles = s.fireParticles := by
  simp [updateFireTrucks, truck1Logic_rest, truck1Leave_rest, truck2Logic_rest, truck2Leave_rest]

@[simp] theorem updateFireTrucks_randCalls :
    (updateFireTrucks s d).randCalls = s.randCalls := by
  simp [updateFireTrucks, truck1Logic_rest, truck1Leave_rest, truck2Logic_rest, truck2Leave_rest]

theorem truck1_logic_leave :
    (truck1Leave (truck1Logic s)).truck1 = truckStep s.currentState true 200 s.truck1 := by
  unfold truck1Leave truck1Logic truckStep; simp only []; split_ifs <;> simp_all

theorem truck2_logic_leave :
    (truck2Leave (truck2Logic s)).truck2 =
      truckStep s.currentState (decide (150 < s.truck1.x)) 250 s.truck2 := by
  unfold truck2Leave truck2Logic truckStep
  by_cases h : 150 < s.truck1.x
  · simp only [h, decide_True, true_and]; split_ifs <;> simp_all
  · simp only [h, decide_False, false_and, and_false, if_false, Bool.false_eq_true]
    split_ifs <;> simp_all

/-- Truck 1 of `updateFireTrucks` is `truckStep` with no extra condition and
target 200. -/
theorem updateFireTrucks_truck1 :
    (updateFireTrucks s d).truck1 = truckStep s.currentState true 200 s.truck1 := by
  simp [updateFireTrucks, truck2Logic_rest, truck2Leave_rest, truck1_logic_leave]

/-- Truck 2 of `updateFireTrucks` is `truckStep` with the condition
`truck1.x > 150`, read after truck 1 has moved, and target 250. -/
theorem updateFireTrucks_truck2 :
    (updateFireTrucks s d).truck2 =
      truckStep s.currentState (decide (150 < (truckStep s.currentState true 200 s.truck1).x))
        250 s.truck2 := by
  simp [updateFireTrucks, truck2_logic_leave, truck1_logic_leave, truck1Logic_rest,
    truck1Leave_rest]

theorem updateHumans_rest :
    (updateHumans s d).currentState = s.currentState ∧ (updateHumans s d).simTime = s.simTime ∧
    (updateHumans s d).burningWindow = s.burningWindow ∧
    (updateHumans s d).truck1 = s.truck1 ∧ (updateHumans s d).truck2 = s.truck2 ∧
    (updateHumans s d).fireParticles = s.fireParticles ∧
    (updateHumans s d).randCalls = s.randCalls := by
  unfold updateHumans; split_ifs <;> simp

/-- The guard of `updateHumans` holds in the stage `HUMANS_ARRIVE` only. -/
theorem humans_guard_iff (cs : SimState) :
    (HUMANS_ARRIVE ≤ cs ∧ cs < FIREFIGHTERS_ARRIVE) ↔ cs = HUMANS_ARRIVE := by
  cases cs <;> decide

/-- The guard of the particle update: the stages from `FIRE_START` up to, and
without, `ALL_CLEAR`. -/
theorem fire_guard_iff (cs : SimState) :
    (FIRE_START ≤ cs ∧ cs < ALL_CLEAR) ↔
      (cs = FIRE_START ∨ cs = ALARM ∨ cs = HUMANS_ARRIVE ∨ cs = FIREFIGHTERS_ARRIVE ∨
        cs = EXTINGUISHING) := by
  cases cs <;> decide

theorem updateHumans_humanPosition :
    (updateHumans s d).humanPosition =
      if s.currentState = HUMANS_ARRIVE then max 350 (s.humanPosition - 1 / 2)
      else s.humanPosition := by
  unfold updateHumans; simp only [humans_guard_iff]; split_ifs <;> rfl

theorem stateTransitions_currentState :
    (stateTransitions w s f).currentState =
      nextStage s.currentState s.simTime s.humanPosition s.truck1.arrived s.truck2.arrived := by
  unfold stateTransitions nextStage playAlarmSound playTruckSound playWaterSound stopWaterSound
    stopAlarmSound stopTruckSound
  split_ifs <;> rfl

theorem stateTransitions_rest :
    (stateTransitions w s f).simTime = s.simTime ∧
    (stateTransitions w s f).truck1 = s.truck1 ∧ (stateTransitions w s f).truck2 = s.truck2 ∧
    (stateTransitions w s f).humanPosition = s.humanPosition ∧
    (stateTransitions w s f).fireParticles = s.fireParticles := by
  unfold stateTransitions playAlarmSound playTruckSound playWaterSound stopWaterSound
    stopAlarmSound stopTruckSound
  split_ifs <;> simp

theorem stateTransitions_burningWindow :
    (stateTransitions w s f).burningWindow =
      if s.currentState = NORMAL ∧ 3 < s.simTime then ((w.rand s.randCalls % 15 : Nat) : Int)
      else s.burningWindow := by
  unfold stateTransitions playAlarmSound playTruckSound playWaterSound stopWaterSound
    stopAlarmSound stopTruckSound
  split_ifs <;> rfl

theorem stateTransitions_randCalls :
    (stateTransitions w s f).randCalls =
      if s.currentState = NORMAL ∧ 3 < s.simTime then s.randCalls + 1 else s.randCalls := by
  unfold stateTransitions playAlarmSound playTruckSound playWaterSound stopWaterSound
    stopAlarmSound stopTruckSound
  split_ifs <;> rfl

/-- The stage after a call is the one the transition chain selects. -/
theorem updateSimulation_currentState :
    (updateSimulation w s f).currentState = s.stageAfter f := by
  unfold updateSimulation State.stageAfter; simp only []
  split_ifs <;>
    simp [updateHumans_rest, stateTransitions_currentState]

theorem updateSimulation_simTime :
    (updateSimulation w s f).simTime = s.simTime + f.deltaTime := by
  unfold updateSimulation; simp only []
  split_ifs <;> simp [updateHumans_rest, stateTransitions_rest]

theorem updateSimulation_burningWindow :
    (updateSimulation w s f).burningWindow =
      if s.currentState = NORMAL ∧ 3 < s.simTime + f.deltaTime then
        ((w.rand s.randCalls % 15 : Nat) : Int)
      else s.burningWindow := by
  unfold updateSimulation; simp only []
  split_ifs <;> simp_all [updateHumans_rest, stateTransitions_burningWindow]

theorem updateSimulation_humanPosition :
    (updateSimulation w s f).humanPosition =
      if s.stageAfter f = HUMANS_ARRIVE then max 350 (s.humanPosition - 1 / 2)
      else s.humanPosition := by
  unfold updateSimulation State.stageAfter; simp only []
  split_ifs <;>
    simp_all [updateHumans_humanPosition, stateTransitions_currentState, stateTransitions_rest]

theorem updateSimulation_truck1 :
    (updateSimulation w s f).truck1 = truckStep (s.stageAfter f) true 200 s.truck1 := by
  unfold updateSimulation State.stageAfter; simp only []
  split_ifs <;>
    simp [updateFireTrucks_truck1, updateHumans_rest, stateTransitions_currentState,
      stateTransitions_rest]

theorem updateSimulation_truck2 :
    (updateSimulation w s f).truck2 =
      truckStep (s.stageAfter f)
        (decide (150 < (truckStep (s.stageAfter f) true 200 s.truck1).x)) 250 s.truck2 := by
  unfold updateSimulation State.stageAfter; simp only []
  split_ifs <;>
    simp [updateFireTrucks_truck2, updateHumans_rest, stateTransitions_currentState,
      stateTransitions_rest]

end fields

/-! ## The invariant -/

/-- The transition chain keeps the stage or moves it one place up. -/
theorem nextStage_same_or_next (cs : SimState) (t hp : ℚ) (a1 a2 : Bool) :
    nextStage cs t hp a1 a2 = cs ∨ (nextStage cs t hp a1 a2).toNat = cs.toNat + 1 := by
  unfold nextStage
  cases cs <;> simp only [reduceCtorEq, false_and, true_and, if_false] <;>
    first
    | (split_ifs <;> simp [SimState.toNat])
    | simp [SimState.toNat]

/-- The stage `EXTINGUISHING` is entered with both trucks arrived. -/
theorem nextStage_extinguishing (cs : SimState) (t hp : ℚ) (a1 a2 : Bool)
    (h : cs = FIREFIGHTERS_ARRIVE) (h2 : nextStage cs t hp a1 a2 = EXTINGUISHING) :
    a1 = true ∧ a2 = true := by
  subst h
  unfold nextStage at h2
  simp at h2
  exact ⟨h2.1, h2.2.1⟩

/-- One call keeps `TruckInv`, for either truck. -/
theorem truckInv_step (cs cs2 : SimState) (x0 target : ℚ) (t : FireTruck) (approach : Bool)
    (hx : x0 < target) (h : TruckInv cs x0 target t)
    (hn : cs2 = cs ∨ cs2.toNat = cs.toNat + 1)
    (hg : cs = FIREFIGHTERS_ARRIVE → cs2 = EXTINGUISHING → t.arrived = true) :
    TruckInv cs2 x0 target (truckStep cs2 approach target t) := by
  obtain ⟨x, a, sp, l⟩ := t
  cases cs <;> cases cs2 <;> simp [SimState.toNat] at hn <;>
    cases approach <;> cases a <;> cases l <;> cases sp <;>
    simp [TruckInv, SimState.toNat] at h hg ⊢ <;>
    simp [truckStep, TruckInv, SimState.toNat] <;>
    (try split_ifs) <;> (try simp_all) <;>
    first
    | linarith
    | (obtain ⟨h1, h2⟩ := h; constructor <;> linarith)

/-- In the stage `FIREFIGHTERS_ARRIVE` a truck that is not leaving either
stays where it is or takes one clamped step of `4/5` towards its target, and
is arrived exactly when it was already or the step reaches the target. -/
theorem truckStep_approach (ap : Bool) (target : ℚ) (t : FireTruck) (hl : t.leaving = false) :
    truckStep FIREFIGHTERS_ARRIVE ap target t =
      if ap = true ∧ t.arrived = false then
        { t with x := min target (t.x + 4 / 5), arrived := decide (target ≤ t.x + 4 / 5) }
      else t := by
  obtain ⟨x, a, sp, l⟩ := t
  simp only at hl
  subst hl
  cases ap <;> cases a <;> simp [truckStep] <;> split_ifs <;> simp_all

theorem inv_initialState : Inv initialState := by
  constructor <;> simp [initialState, TruckInv, SimState.toNat] <;> norm_num

/-- One call of `updateSimulation` keeps the invariant. -/
theorem inv_updateSimulation (w : World) (s : State) (f : Frame) (h : Inv s) :
    Inv (updateSimulation w s f) := by
  have hn := nextStage_same_or_next s.currentState (s.simTime + f.deltaTime) s.humanPosition
    s.truck1.arrived s.truck2.arrived
  have hg := nextStage_extinguishing s.currentState (s.simTime + f.deltaTime) s.humanPosition
    s.truck1.arrived s.truck2.arrived
  have i1 : TruckInv (s.stageAfter f) (-100) 200 (updateSimulation w s f).truck1 := by
    rw [updateSimulation_truck1]
    exact truckInv_step _ _ _ _ _ _ (by norm_num) h.truck1 hn (fun a b => (hg a b).1)
  have i2 : TruckInv (s.stageAfter f) (-150) 250 (updateSimulation w s f).truck2 := by
    rw [updateSimulation_truck2]
    exact truckInv_step _ _ _ _ _ _ (by norm_num) h.truck2 hn (fun a b => (hg a b).2)
  constructor
  · rw [updateSimulation_currentState, updateSimulation_burningWindow]
    intro h2
    have h3 := h.window_unset
    unfold State.stageAfter nextStage at h2
    revert h2 h3
    cases s.currentState <;> simp <;> split_ifs <;> simp_all
  · rw [updateSimulation_currentState, updateSimulation_burningWindow]
    intro h2
    have h3 := h.window_set
    unfold State.stageAfter nextStage at h2
    revert h2 h3
    cases s.currentState <;> simp <;> split_ifs <;> simp_all <;> omega
  · rw [updateSimulation_humanPosition]
    have := h.humans_lo
    split_ifs <;> simp_all
  · rw [updateSimulation_humanPosition]
    have := h.humans_lo
    have := h.humans_hi
    split_ifs
    · exact max_le (by norm_num) (by linarith)
    · assumption
  · rw [updateSimulation_currentState]; exact i1
  · rw [updateSimulation_currentState]; exact i2
  · intro hne
    have l1 : s.stageAfter f = FIREFIGHTERS_ARRIVE → s.truck1.leaving = false ∧
        s.truck2.leaving = false ∧ s.truck1.x ≤ 200 := by
      intro e
      have t1 := h.truck1
      have t2 := h.truck2
      unfold State.stageAfter at e
      rw [e] at hn
      have hcs : s.currentState = HUMANS_ARRIVE ∨ s.currentState = FIREFIGHTERS_ARRIVE := by
        revert hn
        cases s.currentState <;> simp [SimState.toNat]
      rcases hcs with hcs | hcs
      · have a1 := t1.1 (by rw [hcs]; decide)
        have a2 := t2.1 (by rw [hcs]; decide)
        rw [a1, a2]; norm_num
      · have a1 := t1.2.1 hcs
        have a2 := t2.2.1 hcs
        refine ⟨a1.2.1, a2.2.1, ?_⟩
        cases ha : s.truck1.arrived
        · exact le_of_lt (a1.2.2.2.2 ha)
        · exact le_of_eq (a1.2.2.2.1 ha)
    have e1 := updateSimulation_truck1 w s f
    have e2 := updateSimulation_truck2 w s f
    cases hc : s.stageAfter f <;> rw [hc] at i1 i2 l1 e1 e2 <;>
      simp [TruckInv, SimState.toNat] at i1 i2 l1
    · rw [i2] at hne; simp at hne
    · rw [i2] at hne; simp at hne
    · rw [i2] at hne; simp at hne
    · rw [i2] at hne; simp at hne
    · by_contra hlt
      rw [← e1] at e2
      simp only [hlt, decide_False] at e2
      rw [truckStep_approach _ _ _ l1.2.1] at e2
      simp only [Bool.false_eq_true, false_and, if_false] at e2
      rw [e2] at hne
      have h150 := h.convoy hne
      rw [e1, truckStep_approach _ _ _ l1.1] at hlt
      apply hlt
      split_ifs
      · simp only [lt_min_iff]; constructor <;> linarith
      · exact h150
    · rw [i1]; norm_num
    · rw [i1]; norm_num
    · linarith [i1.2.2.2]

/-- Every reachable state satisfies the invariant. -/
theorem Reachable.inv {w : World} {s : State} (h : Reachable w s) : Inv s := by
  induction h with
  | init => exact inv_initialState
  | step s f _ ih => exact inv_updateSimulation w s f ih

/-- Every state of a run from the initial state is reachable. -/
theorem reachable_run (w : World) (frames : Nat → Frame) (n : Nat) :
    Reachable w (run w frames n initialState) := by
  induction n with
  | zero => exact Reachable.init
  | succ n ih => exact Reachable.step _ _ ih

/-! ## What the invariant says about the trucks -/

/-- In the stage `TRUCKS_LEAVING` a truck is set leaving (its spraying flag
cleared if it was not leaving yet) and moves `3/2` to the right. -/
theorem truckStep_leaving (ap : Bool) (target : ℚ) (t : FireTruck) :
    truckStep TRUCKS_LEAVING ap target t =
      ⟨t.x + 3 / 2, t.arrived, (if t.leaving = true then t.spraying else false), true⟩ := by
  obtain ⟨x, a, sp, l⟩ := t
  cases l <;> simp [truckStep]

/-- A truck that satisfies `TruckInv` is leaving in the last stage only. -/
theorem TruckInv.leaving_iff {cs : SimState} {x0 target : ℚ} {t : FireTruck}
    (h : TruckInv cs x0 target t) : t.leaving = true ↔ cs = TRUCKS_LEAVING := by
  obtain ⟨h1, h2, h3, h4⟩ := h
  cases cs <;> simp [SimState.toNat] at h1 h2 h3 h4 ⊢ <;> simp_all

/-- A truck that satisfies `TruckInv` sprays in `EXTINGUISHING` and
`ALL_CLEAR`, and in no other stage. -/
theorem TruckInv.spraying_iff {cs : SimState} {x0 target : ℚ} {t : FireTruck}
    (h : TruckInv cs x0 target t) :
    t.spraying = true ↔ (cs = EXTINGUISHING ∨ cs = ALL_CLEAR) := by
  obtain ⟨h1, h2, h3, h4⟩ := h
  cases cs <;> simp [SimState.toNat] at h1 h2 h3 h4 ⊢ <;> simp_all

/-- A truck that satisfies `TruckInv` has arrived from `EXTINGUISHING` on. -/
theorem TruckInv.arrived_of_late {cs : SimState} {x0 target : ℚ} {t : FireTruck}
    (h : TruckInv cs x0 target t) (hc : 5 ≤ cs.toNat) : t.arrived = true := by
  obtain ⟨h1, h2, h3, h4⟩ := h
  cases cs <;> simp [SimState.toNat] at h1 h2 h3 h4 hc ⊢ <;> simp_all

/-- Where a truck that satisfies `TruckInv` is: left of the target while it
has not arrived, at the target once arrived and not leaving, right of it when
leaving. -/
theorem TruckInv.position {cs : SimState} {x0 target : ℚ} {t : FireTruck}
    (hx : x0 < target) (h : TruckInv cs x0 target t) :
    (t.arrived = false → t.x < target) ∧ (t.arrived = true → target ≤ t.x) ∧
      (t.arrived = true → t.leaving = false → t.x = target) := by
  obtain ⟨h1, h2, h3, h4⟩ := h
  cases cs <;> simp [SimState.toNat] at h1 h2 h3 h4 ⊢ <;> simp_all <;>
    exact le_of_lt h4.2.2.2

/-- The last stage is never left. -/
theorem nextStage_leaving (t hp : ℚ) (a1 a2 : Bool) :
    nextStage TRUCKS_LEAVING t hp a1 a2 = TRUCKS_LEAVING := by
  simp [nextStage]

/-! ## The particle list after a call -/

/-- The filter of `updateFireParticles` keeps the particles with `life > 0`. -/
theorem alive_filter (ps : List FireParticle) :
    ps.filter (fun p => !decide (p.life ≤ 0)) = ps.filter (fun p => decide (0 < p.life)) := by
  congr 1
  funext p
  by_cases h : p.life ≤ 0
  · simp [h, not_lt.2 h]
  · simp [h, not_le.1 h]

/-- The particle list after `updateFireParticles`: the particles with
`life > 0`, in order, each aged, then the particles of the spawn loop if the
fire is active and the window set. -/
theorem updateFireParticles_fireParticles (w : World) (s : State) (d : ℚ) :
    ∃ spawned : List FireParticle,
      (updateFireParticles w s d).fireParticles =
        (s.fireParticles.filter (fun p => decide (0 < p.life))).map
          (ageParticle w s.simTime d) ++ spawned ∧
      (∀ p ∈ spawned, ∃ x y k, p = newParticle w x y s.burningWindow k) ∧
      spawned.length =
        if FIRE_START ≤ s.currentState ∧ s.currentState < ALL_CLEAR ∧ s.burningWindow ≠ -1
        then 5 else 0 := by
  unfold updateFireParticles
  simp only [alive_filter]
  split_ifs with h
  · refine ⟨_, spawnLoop_fireParticles _ _ _ _ _, ?_, by simp⟩
    intro p hp
    simp only [List.mem_map] at hp
    obtain ⟨i, _, rfl⟩ := hp
    exact ⟨_, _, _, rfl⟩
  · exact ⟨[], by simp, by simp, rfl⟩

theorem updateSimulation_eq (w : World) (s : State) (f : Frame) :
    updateSimulation w s f =
      if FIRE_START ≤ (beforeParticles w s f).currentState ∧
          (beforeParticles w s f).currentState < ALL_CLEAR then
        updateFireParticles w (beforeParticles w s f) f.deltaTime
      else beforeParticles w s f := rfl

theorem beforeParticles_fields (w : World) (s : State) (f : Frame) :
    (beforeParticles w s f).currentState = s.stageAfter f ∧
    (beforeParticles w s f).simTime = s.simTime + f.deltaTime ∧
    (beforeParticles w s f).fireParticles = s.fireParticles ∧
    (beforeParticles w s f).burningWindow = (updateSimulation w s f).burningWindow := by
  refine ⟨?_, ?_, ?_, ?_⟩
  · simp [beforeParticles, updateHumans_rest, stateTransitions_currentState, State.stageAfter]
  · simp [beforeParticles, updateHumans_rest, stateTransitions_rest]
  · simp [beforeParticles, updateHumans_rest, stateTransitions_rest]
  · rw [updateSimulation_eq]
    split_ifs <;> simp

/-- What the spawn loop gives a new particle whatever `rand()` returns: the
window it belongs to, `life` in `[1/2, 1)`, `velocity` in `[1/2, 3/2)` and
`size` in `[2, 4)`. -/
theorem newParticle_fields (w : World) (x y : ℚ) (b : Int) (k : Nat) :
    (newParticle w x y b k).windowIndex = b ∧
    1 / 2 ≤ (newParticle w x y b k).life ∧ (newParticle w x y b k).life < 1 ∧
    1 / 2 ≤ (newParticle w x y b k).velocity ∧ (newParticle w x y b k).velocity < 3 / 2 ∧
    2 ≤ (newParticle w x y b k).size ∧ (newParticle w x y b k).size < 4 := by
  have h2 : ((w.rand (k + 2) % 100 : Nat) : ℚ) < 100 := by
    exact_mod_cast Nat.mod_lt _ (by norm_num)
  have h3 : ((w.rand (k + 3) % 100 : Nat) : ℚ) < 100 := by
    exact_mod_cast Nat.mod_lt _ (by norm_num)
  have h4 : ((w.rand (k + 4) % 10 : Nat) : ℚ) < 10 := by
    exact_mod_cast Nat.mod_lt _ (by norm_num)
  have p2 : (0 : ℚ) ≤ ((w.rand (k + 2) % 100 : Nat) : ℚ) := Nat.cast_nonneg _
  have p3 : (0 : ℚ) ≤ ((w.rand (k + 3) % 100 : Nat) : ℚ) := Nat.cast_nonneg _
  have p4 : (0 : ℚ) ≤ ((w.rand (k + 4) % 10 : Nat) : ℚ) := Nat.cast_nonneg _
  refine ⟨rfl, ?_, ?_, ?_, ?_, ?_, ?_⟩ <;> simp only [newParticle] <;> linarith

/-- The particle list after a call: untouched if the stage after the
transitions is outside `[FIRE_START, ALL_CLEAR)`, otherwise what
`updateFireParticles` makes of it. -/
theorem updateSimulation_fireParticles (w : World) (s : State) (f : Frame) :
    ∃ spawned : List FireParticle,
      (updateSimulation w s f).fireParticles =
        (if FIRE_START ≤ s.stageAfter f ∧ s.stageAfter f < ALL_CLEAR then
          (s.fireParticles.filter (fun p => decide (0 < p.life))).map
            (ageParticle w (s.simTime + f.deltaTime) f.deltaTime)
        else s.fireParticles) ++ spawned ∧
      (∀ p ∈ spawned, ∃ x y k,
        p = newParticle w x y (updateSimulation w s f).burningWindow k) ∧
      spawned.length =
        if FIRE_START ≤ s.stageAfter f ∧ s.stageAfter f < ALL_CLEAR ∧
          (updateSimulation w s f).burningWindow ≠ -1
        then 5 else 0 := by
  obtain ⟨e1, e2, e3, e4⟩ := beforeParticles_fields w s f
  by_cases hg : FIRE_START ≤ s.stageAfter f ∧ s.stageAfter f < ALL_CLEAR
  · obtain ⟨sp, p1, p2, p3⟩ :=
      updateFireParticles_fireParticles w (beforeParticles w s f) f.deltaTime
    rw [e2, e3] at p1
    rw [e1, e4] at p3
    rw [e4] at p2
    refine ⟨sp, ?_, p2, ?_⟩
    · rw [if_pos hg, ← p1, updateSimulation_eq, e1, if_pos hg]
    · rw [p3]
  · refine ⟨[], ?_, by simp, ?_⟩
    · rw [if_neg hg, updateSimulation_eq, e1, if_neg hg, e3]; simp
    · rw [if_neg (fun h => hg ⟨h.1, h.2.1⟩)]; rfl

/-! ## Trajectories

A trajectory is a sequence of states in which each state is the result of
one call of `updateSimulation` on the one before. -/

section trajectory

variable (w : World) (σ : Nat → State) (fs : Nat → Frame)

theorem SimState.toNat_inj {a b : SimState} (h : a.toNat = b.toNat) : a = b := by
  cases a <;> cases b <;> simp [SimState.toNat] at h ⊢

theorem traj_inv (hσ : ∀ n, σ (n + 1) = updateSimulation w (σ n) (fs n)) (h0 : Inv (σ 0))
    (n : Nat) : Inv (σ n) := by
  induction n with
  | zero => exact h0
  | succ n ih => rw [hσ]; exact inv_updateSimulation w _ _ ih

theorem traj_simTime (hσ : ∀ n, σ (n + 1) = updateSimulation w (σ n) (fs n)) (d : ℚ)
    (hd : ∀ n, (fs n).deltaTime = d) (n : Nat) :
    (σ n).simTime = (σ 0).simTime + n * d := by
  induction n with
  | zero => simp
  | succ n ih => rw [hσ, updateSimulation_simTime, ih, hd]; push_cast; ring

theorem traj_stage (hσ : ∀ n, σ (n + 1) = updateSimulation w (σ n) (fs n)) (n : Nat) :
    (σ (n + 1)).currentState =
      nextStage (σ n).currentState ((σ n).simTime + (fs n).deltaTime) (σ n).humanPosition
        (σ n).truck1.arrived (σ n).truck2.arrived := by
  rw [hσ, updateSimulation_currentState]; rfl

/-- A trajectory that is in the stage `cs` at frame `m` and not at a later
frame `k` passes from `cs` to the next stage at some frame in between. -/
theorem traj_advance (hσ : ∀ n, σ (n + 1) = updateSimulation w (σ n) (fs n))
    (cs cs2 : SimState) (hnext : cs2.toNat = cs.toNat + 1) (m : Nat)
    (hm : (σ m).currentState = cs) (k : Nat) (hk : m ≤ k) (hne : (σ k).currentState ≠ cs) :
    ∃ j, m ≤ j ∧ (σ j).currentState = cs ∧ (σ (j + 1)).currentState = cs2 := by
  induction k, hk using Nat.le_induction with
  | base => exact absurd hm hne
  | succ k hk ih =>
    by_cases h : (σ k).currentState = cs
    · refine ⟨k, hk, h, ?_⟩
      have hs := traj_stage w σ fs hσ k
      rcases nextStage_same_or_next (σ k).currentState ((σ k).simTime + (fs k).deltaTime)
        (σ k).humanPosition (σ k).truck1.arrived (σ k).truck2.arrived with e | e
      · rw [e, h] at hs; exact absurd hs hne
      · rw [← hs, h, ← hnext] at e; exact SimState.toNat_inj e
    · exact ih h

/-- While the stage stays `HUMANS_ARRIVE` the humans come half a unit closer
per frame, down to 350. -/
theorem traj_humans (hσ : ∀ n, σ (n + 1) = updateSimulation w (σ n) (fs n)) (m n : Nat)
    (h : ∀ k, k ≤ n → (σ (m + k)).currentState = HUMANS_ARRIVE) :
    (σ (m + n)).humanPosition ≤ max 350 ((σ m).humanPosition - n / 2) := by
  induction n with
  | zero => simp
  | succ n ih =>
    have ih2 := ih (fun k hk => h k (Nat.le_succ_of_le hk))
    have hs := h (n + 1) (le_refl _)
    rw [← Nat.add_assoc, hσ, updateSimulation_currentState] at hs
    rw [← Nat.add_assoc, hσ, updateSimulation_humanPosition, if_pos hs]
    push_cast
    rcases le_max_iff.1 ih2 with h1 | h1
    · exact max_le (le_max_left _ _) (le_max_of_le_left (by linarith))
    · exact max_le (le_max_left _ _) (le_max_of_le_right (by linarith))

/-- While the stage stays `FIREFIGHTERS_ARRIVE` truck 1 has arrived or has
come `4/5` closer per frame. -/
theorem traj_truck1 (hσ : ∀ n, σ (n + 1) = updateSimulation w (σ n) (fs n))
    (hi : ∀ n, Inv (σ n)) (m n : Nat)
    (h : ∀ k, k ≤ n → (σ (m + k)).currentState = FIREFIGHTERS_ARRIVE) :
    (σ (m + n)).truck1.arrived = true ∨
      (σ (m + n)).truck1.x = (σ m).truck1.x + 4 / 5 * n := by
  induction n with
  | zero => right; simp
  | succ n ih =>
    have ih2 := ih (fun k hk => h k (Nat.le_succ_of_le hk))
    have hs := h (n + 1) (le_refl _)
    have hl : (σ (m + n)).truck1.leaving = false :=
      ((hi (m + n)).truck1.2.1 (h n (Nat.le_succ n))).2.1
    rw [← Nat.add_assoc, hσ, updateSimulation_currentState] at hs
    rw [← Nat.add_assoc, hσ, updateSimulation_truck1, hs, truckStep_approach _ _ _ hl]
    cases ha : (σ (m + n)).truck1.arrived
    · simp only [ha, Bool.false_eq_true, false_or] at ih2
      simp only [and_self, if_true, decide_eq_true_eq]
      by_cases hx : (200 : ℚ) ≤ (σ (m + n)).truck1.x + 4 / 5
      · left; exact hx
      · right
        rw [min_eq_right (le_of_lt (not_le.1 hx)), ih2]
        push_cast; ring
    · left; simp [ha]

/-- While the stage stays `FIREFIGHTERS_ARRIVE` and truck 1 has arrived,
truck 2 has arrived or has come `4/5` closer per frame. -/
theorem traj_truck2 (hσ : ∀ n, σ (n + 1) = updateSimulation w (σ n) (fs n))
    (hi : ∀ n, Inv (σ n)) (m n : Nat)
    (h : ∀ k, k ≤ n → (σ (m + k)).currentState = FIREFIGHTERS_ARRIVE)
    (h1 : ∀ k, k ≤ n → (σ (m + k)).truck1.arrived = true) :
    (σ (m + n)).truck2.arrived = true ∨
      (σ (m + n)).truck2.x = (σ m).truck2.x + 4 / 5 * n := by
  induction n with
  | zero => right; simp
  | succ n ih =>
    have ih2 := ih (fun k hk => h k (Nat.le_succ_of_le hk))
      (fun k hk => h1 k (Nat.le_succ_of_le hk))
    have hs := h (n + 1) (le_refl _)
    have hc := h n (Nat.le_succ n)
    have hl1 : (σ (m + n)).truck1.leaving = false := ((hi (m + n)).truck1.2.1 hc).2.1
    have hl2 : (σ (m + n)).truck2.leaving = false := ((hi (m + n)).truck2.2.1 hc).2.1
    have ha1 := h1 n (Nat.le_succ n)
    have hx1 : (σ (m + n)).truck1.x = 200 :=
      ((hi (m + n)).truck1.position (by norm_num)).2.2 ha1 hl1
    rw [← Nat.add_assoc, hσ, updateSimulation_currentState] at hs
    rw [← Nat.add_assoc, hσ, updateSimulation_truck2, hs, truckStep_approach _ _ _ hl1,
      truckStep_approach _ _ _ hl2]
    simp only [ha1, Bool.true_eq_false, and_false, if_false, hx1]
    cases ha : (σ (m + n)).truck2.arrived
    · simp only [ha, Bool.false_eq_true, false_or] at ih2
      have h150 : decide ((150 : ℚ) < 200) = true := by norm_num
      simp only [h150, and_self, if_true, decide_eq_true_eq]
      by_cases hx : (250 : ℚ) ≤ (σ (m + n)).truck2.x + 4 / 5
      · left; exact hx
      · right
        rw [min_eq_right (le_of_lt (not_le.1 hx)), ih2]
        push_cast; ring
    · left; simp [ha]

/-- Once `simTime` is past 28, every guard of the chain whose prerequisite on
the actors holds fires. -/
theorem nextStage_fires (cs : SimState) (t hp : ℚ) (a1 a2 : Bool) (ht : 28 < t)
    (hcs : cs ≠ TRUCKS_LEAVING) (hh : cs = HUMANS_ARRIVE → hp ≤ 350)
    (ha : cs = FIREFIGHTERS_ARRIVE → a1 = true ∧ a2 = true) :
    nextStage cs t hp a1 a2 ≠ cs := by
  unfold nextStage
  cases cs <;> simp at hcs hh ha ⊢
  · linarith
  · linarith
  · linarith
  · exact ⟨hh, by linarith⟩
  · exact ⟨ha.1, ha.2, by linarith⟩
  · linarith
  · linarith

/-- After 375 frames in the stage `FIREFIGHTERS_ARRIVE` truck 1 has arrived:
it started at `-100` or further right and `375 * 4/5 = 300`. -/
theorem traj_truck1_arrived (hσ : ∀ n, σ (n + 1) = updateSimulation w (σ n) (fs n))
    (hi : ∀ n, Inv (σ n)) (m : Nat)
    (h : ∀ k, k ≤ 375 → (σ (m + k)).currentState = FIREFIGHTERS_ARRIVE) :
    (σ (m + 375)).truck1.arrived = true := by
  rcases traj_truck1 w σ fs hσ hi m 375 h with hw | hw
  · exact hw
  · by_contra hna
    have hlt := ((hi (m + 375)).truck1.position (by norm_num)).1 (by simpa using hna)
    have hge := ((hi m).truck1.2.1 (h 0 (Nat.zero_le _))).2.2.1
    rw [hw] at hlt
    norm_num at hlt
    linarith

/-- After 875 frames in the stage `FIREFIGHTERS_ARRIVE` both trucks have
arrived: truck 1 within the first 375, and truck 2, which started at `-150`
or further right, within the 500 that follow (`500 * 4/5 = 400`). -/
theorem traj_trucks_arrived (hσ : ∀ n, σ (n + 1) = updateSimulation w (σ n) (fs n))
    (hi : ∀ n, Inv (σ n)) (m : Nat)
    (h : ∀ k, k ≤ 875 → (σ (m + k)).currentState = FIREFIGHTERS_ARRIVE) :
    (σ (m + 875)).truck1.arrived = true ∧ (σ (m + 875)).truck2.arrived = true := by
  have h1 : ∀ k, k ≤ 500 → (σ (m + 375 + k)).truck1.arrived = true := by
    intro k hk
    have := traj_truck1_arrived w σ fs hσ hi (m + k)
      (fun j hj => by rw [Nat.add_assoc]; exact h _ (by omega))
    have e : m + k + 375 = m + 375 + k := by omega
    rwa [e] at this
  refine ⟨h1 500 (le_refl _), ?_⟩
  rcases traj_truck2 w σ fs hσ hi (m + 375) 500
    (fun j hj => by rw [Nat.add_assoc]; exact h _ (by omega)) h1 with hw | hw
  · exact hw
  · by_contra hna
    have hlt := ((hi (m + 875)).truck2.position (by norm_num)).1 (by simpa using hna)
    have hge := ((hi (m + 375)).truck2.2.1 (h 375 (by omega))).2.2.1
    rw [hw] at hlt
    norm_num at hlt
    linarith

/-- With a constant `deltaTime = d > 0` a trajectory does not stay for ever
in a stage other than `TRUCKS_LEAVING`. -/
theorem traj_leaves (hσ : ∀ n, σ (n + 1) = updateSimulation w (σ n) (fs n)) (h0 : Inv (σ 0))
    (d : ℚ) (hd0 : 0 < d) (hd : ∀ n, (fs n).deltaTime = d) (cs : SimState)
    (hcs : cs ≠ TRUCKS_LEAVING) (m : Nat) :
    ∃ k, m ≤ k ∧ (σ k).currentState ≠ cs := by
  by_contra hstuck
  push_neg at hstuck
  have hi := traj_inv w σ fs hσ h0
  obtain ⟨N0, hN0⟩ := exists_nat_gt ((28 - (σ 0).simTime) / d)
  rw [div_lt_iff₀ hd0] at hN0
  -- a frame late enough for the clock and for the actors
  have hst : ∀ k, (σ (m + k)).currentState = cs := fun k => hstuck _ (Nat.le_add_right m k)
  have htime : 28 < (σ (m + N0 + 900)).simTime + (fs (m + N0 + 900)).deltaTime := by
    rw [traj_simTime w σ fs hσ d hd, hd]
    have : (N0 : ℚ) * d ≤ ((m + N0 + 900 : Nat) : ℚ) * d := by
      apply mul_le_mul_of_nonneg_right _ (le_of_lt hd0)
      exact_mod_cast (show N0 ≤ m + N0 + 900 by omega)
    linarith
  have hhum : cs = HUMANS_ARRIVE → (σ (m + N0 + 900)).humanPosition ≤ 350 := by
    intro e
    have := traj_humans w σ fs hσ (m + N0) 900 (fun k _ => by rw [Nat.add_assoc, hst, e])
    refine le_trans this (max_le (le_refl _) ?_)
    have h800 := (hi (m + N0)).humans_hi
    push_cast
    linarith
  have htr : cs = FIREFIGHTERS_ARRIVE →
      (σ (m + N0 + 900)).truck1.arrived = true ∧ (σ (m + N0 + 900)).truck2.arrived = true := by
    intro e
    have := traj_trucks_arrived w σ fs hσ hi (m + N0 + 25)
      (fun k _ => by rw [Nat.add_assoc, Nat.add_assoc, hst, e])
    exact this
  have hfire := nextStage_fires (σ (m + N0 + 900)).currentState _
    (σ (m + N0 + 900)).humanPosition (σ (m + N0 + 900)).truck1.arrived
    (σ (m + N0 + 900)).truck2.arrived htime
    (by rw [hstuck _ (by omega)]; exact hcs)
    (fun e => hhum (by rw [← e, hstuck _ (by omega)]))
    (fun e => htr (by rw [← e, hstuck _ (by omega)]))
  rw [← traj_stage w σ fs hσ] at hfire
  exact hfire ((hstuck _ (by omega)).trans (hstuck _ (by omega)).symm)

/-- With frames of `deltaTime = 0` a trajectory stays in a stage whose guard
needs a later time than the present one, and its clock stands still. -/
theorem traj_idle (hσ : ∀ n, σ (n + 1) = updateSimulation w (σ n) (fs n))
    (hd : ∀ n, (fs n).deltaTime = 0)
    (hg : ∀ hp a1 a2, nextStage (σ 0).currentState (σ 0).simTime hp a1 a2 =
      (σ 0).currentState) (n : Nat) :
    (σ n).currentState = (σ 0).currentState ∧ (σ n).simTime = (σ 0).simTime := by
  induction n with
  | zero => exact ⟨rfl, rfl⟩
  | succ n ih =>
    rw [traj_stage w σ fs hσ, hσ, updateSimulation_simTime, hd, add_zero, ih.1, ih.2]
    exact ⟨hg _ _ _, rfl⟩

/-- With a constant `deltaTime = d > 0` a trajectory that is in a stage `cs`
other than the last passes to the next stage `cs2` at some later frame. -/
theorem traj_next (hσ : ∀ n, σ (n + 1) = updateSimulation w (σ n) (fs n)) (h0 : Inv (σ 0))
    (d : ℚ) (hd0 : 0 < d) (hd : ∀ n, (fs n).deltaTime = d) (cs cs2 : SimState)
    (hnext : cs2.toNat = cs.toNat + 1) (m : Nat) (hm : (σ m).currentState = cs) :
    ∃ j, m ≤ j ∧ (σ j).currentState = cs ∧ (σ (j + 1)).currentState = cs2 := by
  have hcs : cs ≠ TRUCKS_LEAVING := by
    intro e
    rw [e] at hnext
    revert hnext
    cases cs2 <;> simp [SimState.toNat]
  obtain ⟨k, hk, hne⟩ := traj_leaves w σ fs hσ h0 d hd0 hd cs hcs m
  exact traj_advance w σ fs hσ cs cs2 hnext m hm k hk hne

end trajectory

/-! ## Runs -/

/-- A run is a trajectory. -/
theorem run_succ (w : World) (frames : Nat → Frame) (s : State) (n : Nat) :
    run w frames (n + 1) s = updateSimulation w (run w frames n s) (frames n) := rfl

theorem reachable_run_from (w : World) (frames : Nat → Frame) (s : State) (h : Reachable w s)
    (n : Nat) : Reachable w (run w frames n s) := by
  induction n with
  | zero => exact h
  | succ n ih => exact Reachable.step _ _ ih

theorem run_zero (w : World) (frames : Nat → Frame) (s : State) : run w frames 0 s = s := rfl

/-- Frames during which no time passes leave a run in a stage whose guard
needs a later time, with the clock standing still. -/
theorem run_idle (w : World) (frames : Nat → Frame) (s : State)
    (hd : ∀ n, (frames n).deltaTime = 0)
    (hg : ∀ hp a1 a2, nextStage s.currentState s.simTime hp a1 a2 = s.currentState) (n : Nat) :
    (run w frames n s).currentState = s.currentState ∧ (run w frames n s).simTime = s.simTime :=
  traj_idle w (fun n => run w frames n s) frames (run_succ w frames s) hd hg n

/-- A run that stays in `HUMANS_ARRIVE` for `n` frames brings the humans
`n / 2` closer, down to 350. -/
theorem run_humans (w : World) (frames : Nat → Frame) (s : State) (n : Nat)
    (h : ∀ k, k ≤ n → (run w frames k s).currentState = HUMANS_ARRIVE) :
    (run w frames n s).humanPosition ≤ max 350 (s.humanPosition - n / 2) := by
  have := traj_humans w (fun n => run w frames n s) frames (run_succ w frames s) 0 n
    (fun k hk => by simpa using h k hk)
  simpa using this

/-- A run from a reachable state that stays in `FIREFIGHTERS_ARRIVE` for 875
frames or more ends with both trucks arrived. -/
theorem run_trucks_arrived (w : World) (frames : Nat → Frame) (s : State)
    (hr : Reachable w s) (n : Nat) (hn : 875 ≤ n)
    (h : ∀ k, k ≤ n → (run w frames k s).currentState = FIREFIGHTERS_ARRIVE) :
    (run w frames n s).truck1.arrived = true ∧ (run w frames n s).truck2.arrived = true := by
  obtain ⟨m, rfl⟩ : ∃ m, n = m + 875 := ⟨n - 875, by omega⟩
  obtain ⟨σ, hσ⟩ : ∃ σ : Nat → State, ∀ n, σ n = run w frames n s :=
    ⟨_, fun _ => rfl⟩
  rw [← hσ]
  exact traj_trucks_arrived w σ frames (fun n => by rw [hσ, hσ]; rfl)
    (fun n => by rw [hσ]; exact (reachable_run_from w frames s hr n).inv) m
    (fun k hk => by rw [hσ]; exact h _ (by omega))

/-! ## The core of a run, and a worked run -/

/-- One call acts on the core as `coreStep` does. -/
theorem core_updateSimulation (w : World) (s : State) (f : Frame) :
    (updateSimulation w s f).core = coreStep f.deltaTime s.core := by
  simp only [State.core, coreStep, updateSimulation_currentState, updateSimulation_simTime,
    updateSimulation_humanPosition, updateSimulation_truck1, updateSimulation_truck2,
    State.stageAfter]

/-- The core of a run whose frames all have `deltaTime = d`. -/
theorem core_run (w : World) (frames : Nat → Frame) (d : ℚ)
    (hd : ∀ i, (frames i).deltaTime = d) (n : Nat) (s : State) :
    (run w frames n s).core = coreRun d n s.core := by
  induction n with
  | zero => rfl
  | succ n ih => rw [run, core_updateSimulation, hd, ih, coreRun]

/-- A run of `a + b` frames is a run of `a` frames followed by one of `b`. -/
theorem coreRun_chunk (d : ℚ) (a b : Nat) (c c2 : Core) (h : coreRun d a c = c2) :
    coreRun d (a + b) c = coreRun d b c2 := by
  subst h
  induction b with
  | zero => rfl
  | succ b ih => rw [← Nat.add_assoc, coreRun, ih, coreRun]

/-! The worked run (`world0`, one second per frame) is followed a stretch of
frames at a time: `worked_run_k` evaluates `coreRun` from the core reached at
the end of the stretch before to the core at frame `k`. -/

theorem worked_run_100 :
    coreRun 1 100 ⟨NORMAL, 0, 800,
      ⟨(-100), false, false, false⟩,
      ⟨(-150), false, false, false⟩⟩ =
    ⟨HUMANS_ARRIVE, 100, 1509 / 2,
      ⟨(-100), false, false, false⟩,
      ⟨(-150), false, false, false⟩⟩ := by
  decide!

theorem worked_run_200 :
    coreRun 1 100 ⟨HUMANS_ARRIVE, 100, 1509 / 2,
      ⟨(-100), false, false, false⟩,
      ⟨(-150), false, false, false⟩⟩ =
    ⟨HUMANS_ARRIVE, 200, 1409 / 2,
      ⟨(-100), false, false, false⟩,
      ⟨(-150), false, false, false⟩⟩ := by
  decide!

theorem worked_run_300 :
    coreRun 1 100 ⟨HUMANS_ARRIVE, 200, 1409 / 2,
      ⟨(-100), false, false, false⟩,
      ⟨(-150), false, false, false⟩⟩ =
    ⟨HUMANS_ARRIVE, 300, 1309 / 2,
      ⟨(-100), false, false, false⟩,
      ⟨(-150), false, false, false⟩⟩ := by
  decide!

theorem worked_run_400 :
    coreRun 1 100 ⟨HUMANS_ARRIVE, 300, 1309 / 2,
      ⟨(-100), false, false, false⟩,
      ⟨(-150), false, false, false⟩⟩ =
    ⟨HUMANS_ARRIVE, 400, 1209 / 2,
      ⟨(-100), false, false, false⟩,
      ⟨(-150), false, false, false⟩⟩ := by
  decide!

theorem worked_run_500 :
    coreRun 1 100 ⟨HUMANS_ARRIVE, 400, 1209 / 2,
      ⟨(-100), false, false, false⟩,
      ⟨(-150), false, false, false⟩⟩ =
    ⟨HUMANS_ARRIVE, 500, 1109 / 2,
      ⟨(-100), false, false, false⟩,
      ⟨(-150), false, false, false⟩⟩ := by
  decide!

theorem worked_run_600 :
    coreRun 1 100 ⟨HUMANS_ARRIVE, 500, 1109 / 2,
      ⟨(-100), false, false, false⟩,
      ⟨(-150), false, false, false⟩⟩ =
    ⟨HUMANS_ARRIVE, 600, 1009 / 2,
      ⟨(-100), false, false, false⟩,
      ⟨(-150), false, false, false⟩⟩ := by
  decide!

theorem worked_run_700 :
    coreRun 1 100 ⟨HUMANS_ARRIVE, 600, 1009 / 2,
      ⟨(-100), false, false, false⟩,
      ⟨(-150), false, false, false⟩⟩ =
    ⟨HUMANS_ARRIVE, 700, 909 / 2,
      ⟨(-100), false, false, false⟩,
      ⟨(-150), false, false, false⟩⟩ := by
  decide!

theorem worked_run_800 :
    coreRun 1 100 ⟨HUMANS_ARRIVE, 700, 909 / 2,
      ⟨(-100), false, false, false⟩,
      ⟨(-150), false, false, false⟩⟩ =
    ⟨HUMANS_ARRIVE, 800, 809 / 2,
      ⟨(-100), false, false, false⟩,
      ⟨(-150), false, false, false⟩⟩ := by
  decide!

theorem worked_run_900 :
    coreRun 1 100 ⟨HUMANS_ARRIVE, 800, 809 / 2,
      ⟨(-100), false, false, false⟩,
      ⟨(-150), false, false, false⟩⟩ =
    ⟨HUMANS_ARRIVE, 900, 709 / 2,
      ⟨(-100), false, false, false⟩,
      ⟨(-150), false, false, false⟩⟩ := by
  decide!

theorem worked_run_1000 :
    coreRun 1 100 ⟨HUMANS_ARRIVE, 900, 709 / 2,
      ⟨(-100), false, false, false⟩,
      ⟨(-150), false, false, false⟩⟩ =
    ⟨FIREFIGHTERS_ARRIVE, 1000, 350,
      ⟨(-136 / 5), false, false, false⟩,
      ⟨(-150), false, false, false⟩⟩ := by
  decide!

theorem worked_run_1100 :
    coreRun 1 100 ⟨FIREFIGHTERS_ARRIVE, 1000, 350,
      ⟨(-136 / 5), false, false, false⟩,
      ⟨(-150), false, false, false⟩⟩ =
    ⟨FIREFIGHTERS_ARRIVE, 1100, 350,
      ⟨264 / 5, false, false, false⟩,
      ⟨(-150), false, false, false⟩⟩ := by
  decide!

theorem worked_run_1200 :
    coreRun 1 100 ⟨FIREFIGHTERS_ARRIVE, 1100, 350,
      ⟨264 / 5, false, false, false⟩,
      ⟨(-150), false, false, false⟩⟩ =
    ⟨FIREFIGHTERS_ARRIVE, 1200, 350,
      ⟨664 / 5, false, false, false⟩,
      ⟨(-150), false, false, false⟩⟩ := by
  decide!

theorem worked_run_1300 :
    coreRun 1 100 ⟨FIREFIGHTERS_ARRIVE, 1200, 350,
      ⟨664 / 5, false, false, false⟩,
      ⟨(-150), false, false, false⟩⟩ =
    ⟨FIREFIGHTERS_ARRIVE, 1300, 350,
      ⟨200, true, false, false⟩,
      ⟨(-434 / 5), false, false, false⟩⟩ := by
  decide!

theorem worked_run_1400 :
    coreRun 1 100 ⟨FIREFIGHTERS_ARRIVE, 1300, 350,
      ⟨200, true, false, false⟩,
      ⟨(-434 / 5), false, false, false⟩⟩ =
    ⟨FIREFIGHTERS_ARRIVE, 1400, 350,
      ⟨200, true, false, false⟩,
      ⟨(-34 / 5), false, false, false⟩⟩ := by
  decide!

theorem worked_run_1500 :
    coreRun 1 100 ⟨FIREFIGHTERS_ARRIVE, 1400, 350,
      ⟨200, true, false, false⟩,
      ⟨(-34 / 5), false, false, false⟩⟩ =
    ⟨FIREFIGHTERS_ARRIVE, 1500, 350,
      ⟨200, true, false, false⟩,
      ⟨366 / 5, false, false, false⟩⟩ := by
  decide!

theorem worked_run_1600 :
    coreRun 1 100 ⟨FIREFIGHTERS_ARRIVE, 1500, 350,
      ⟨200, true, false, false⟩,
      ⟨366 / 5, false, false, false⟩⟩ =
    ⟨FIREFIGHTERS_ARRIVE, 1600, 350,
      ⟨200, true, false, false⟩,
      ⟨766 / 5, false, false, false⟩⟩ := by
  decide!

theorem worked_run_1700 :
    coreRun 1 100 ⟨FIREFIGHTERS_ARRIVE, 1600, 350,
      ⟨200, true, false, false⟩,
      ⟨766 / 5, false, false, false⟩⟩ =
    ⟨FIREFIGHTERS_ARRIVE, 1700, 350,
      ⟨200, true, false, false⟩,
      ⟨1166 / 5, false, false, false⟩⟩ := by
  decide!

theorem worked_run_1722 :
    coreRun 1 22 ⟨FIREFIGHTERS_ARRIVE, 1700, 350,
      ⟨200, true, false, false⟩,
      ⟨1166 / 5, false, false, false⟩⟩ =
    ⟨EXTINGUISHING, 1722, 350,
      ⟨200, true, true, false⟩,
      ⟨250, true, true, false⟩⟩ := by
  decide!

theorem worked_run_1723 :
    coreRun 1 1 ⟨EXTINGUISHING, 1722, 350,
      ⟨200, true, true, false⟩,
      ⟨250, true, true, false⟩⟩ =
    ⟨ALL_CLEAR, 1723, 350,
      ⟨200, true, true, false⟩,
      ⟨250, true, true, false⟩⟩ := by
  decide!

theorem worked_run_1724 :
    coreRun 1 1 ⟨ALL_CLEAR, 1723, 350,
      ⟨200, true, true, false⟩,
      ⟨250, true, true, false⟩⟩ =
    ⟨TRUCKS_LEAVING, 1724, 350,
      ⟨403 / 2, true, false, true⟩,
      ⟨503 / 2, true, false, true⟩⟩ := by
  decide!

theorem worked_run_1725 :
    coreRun 1 1 ⟨TRUCKS_LEAVING, 1724, 350,
      ⟨403 / 2, true, false, true⟩,
      ⟨503 / 2, true, false, true⟩⟩ =
    ⟨TRUCKS_LEAVING, 1725, 350,
      ⟨203, true, false, true⟩,
      ⟨253, true, false, true⟩⟩ := by
  decide!

/-- The worked run at frame 100 (the humans are walking in) and at frames 1722
to 1725: the stages `EXTINGUISHING`, `ALL_CLEAR` and `TRUCKS_LEAVING` are
entered at frames 1722, 1723 and 1724. -/
theorem coreRun_seconds :
    coreRun 1 100 initialState.core =
      ⟨HUMANS_ARRIVE, 100, 1509 / 2,
      ⟨(-100), false, false, false⟩,
      ⟨(-150), false, false, false⟩⟩ ∧
    coreRun 1 1722 initialState.core =
      ⟨EXTINGUISHING, 1722, 350,
      ⟨200, true, true, false⟩,
      ⟨250, true, true, false⟩⟩ ∧
    coreRun 1 1723 initialState.core =
      ⟨ALL_CLEAR, 1723, 350,
      ⟨200, true, true, false⟩,
      ⟨250, true, true, false⟩⟩ ∧
    coreRun 1 1724 initialState.core =
      ⟨TRUCKS_LEAVING, 1724, 350,
      ⟨403 / 2, true, false, true⟩,
      ⟨503 / 2, true, false, true⟩⟩ ∧
    coreRun 1 1725 initialState.core =
      ⟨TRUCKS_LEAVING, 1725, 350,
      ⟨203, true, false, true⟩,
      ⟨253, true, false, true⟩⟩ := by
  have h100 : coreRun 1 100 initialState.core = _ := worked_run_100
  have h200 := (coreRun_chunk 1 100 100 _ _ h100).trans worked_run_200
  have h300 := (coreRun_chunk 1 200 100 _ _ h200).trans worked_run_300
  have h400 := (coreRun_chunk 1 300 100 _ _ h300).trans worked_run_400
  have h500 := (coreRun_chunk 1 400 100 _ _ h400).trans worked_run_500
  have h600 := (coreRun_chunk 1 500 100 _ _ h500).trans worked_run_600
  have h700 := (coreRun_chunk 1 600 100 _ _ h600).trans worked_run_700
  have h800 := (coreRun_chunk 1 700 100 _ _ h700).trans worked_run_800
  have h900 := (coreRun_chunk 1 800 100 _ _ h800).trans worked_run_900
  have h1000 := (coreRun_chunk 1 900 100 _ _ h900).trans worked_run_1000
  have h1100 := (coreRun_chunk 1 1000 100 _ _ h1000).trans worked_run_1100
  have h1200 := (coreRun_chunk 1 1100 100 _ _ h1100).trans worked_run_1200
  have h1300 := (coreRun_chunk 1 1200 100 _ _ h1200).trans worked_run_1300
  have h1400 := (coreRun_chunk 1 1300 100 _ _ h1300).trans worked_run_1400
  have h1500 := (coreRun_chunk 1 1400 100 _ _ h1400).trans worked_run_1500
  have h1600 := (coreRun_chunk 1 1500 100 _ _ h1500).trans worked_run_1600
  have h1700 := (coreRun_chunk 1 1600 100 _ _ h1600).trans worked_run_1700
  have h1722 := (coreRun_chunk 1 1700 22 _ _ h1700).trans worked_run_1722
  have h1723 := (coreRun_chunk 1 1722 1 _ _ h1722).trans worked_run_1723
  have h1724 := (coreRun_chunk 1 1723 1 _ _ h1723).trans worked_run_1724
  have h1725 := (coreRun_chunk 1 1724 1 _ _ h1724).trans worked_run_1725
  exact ⟨h100, h1722, h1723, h1724, h1725⟩

/-- The state of the worked run has the core `coreRun` computes. -/
theorem run_secondFrames_core (n : Nat) :
    (run world0 secondFrames n initialState).core = coreRun 1 n initialState.core :=
  core_run world0 secondFrames 1 (fun _ => rfl) n initialState

theorem core_eq_iff (s : State) (c : Core) :
    s.core = c ↔
      s.currentState = c.stage ∧ s.simTime = c.simTime ∧ s.humanPosition = c.humanPosition ∧
        s.truck1 = c.truck1 ∧ s.truck2 = c.truck2 := by
  cases c; simp [State.core]

/-- The state of the worked run after 100 frames. -/
theorem run_seconds_100 :
    (run world0 secondFrames 100 initialState).currentState = HUMANS_ARRIVE ∧
    (run world0 secondFrames 100 initialState).humanPosition = 1509 / 2 := by
  have h := (core_eq_iff _ _).1 ((run_secondFrames_core 100).trans coreRun_seconds.1)
  exact ⟨h.1, h.2.2.1⟩

/-- The state of the worked run after 1722 frames. -/
theorem run_seconds_1722 :
    (run world0 secondFrames 1722 initialState).currentState = EXTINGUISHING ∧
    (run world0 secondFrames 1722 initialState).truck1 = ⟨200, true, true, false⟩ ∧
    (run world0 secondFrames 1722 initialState).truck2 = ⟨250, true, true, false⟩ := by
  have h := (core_eq_iff _ _).1 ((run_secondFrames_core 1722).trans coreRun_seconds.2.1)
  exact ⟨h.1, h.2.2.2.1, h.2.2.2.2⟩

/-- The state of the worked run after 1723 frames. -/
theorem run_seconds_1723 :
    (run world0 secondFrames 1723 initialState).currentState = ALL_CLEAR ∧
    (run world0 secondFrames 1723 initialState).truck1 = ⟨200, true, true, false⟩ ∧
    (run world0 secondFrames 1723 initialState).truck2 = ⟨250, true, true, false⟩ := by
  have h := (core_eq_iff _ _).1 ((run_secondFrames_core 1723).trans coreRun_seconds.2.2.1)
  exact ⟨h.1, h.2.2.2.1, h.2.2.2.2⟩

/-- The state of the worked run after 1724 frames. -/
theorem run_seconds_1724 :
    (run world0 secondFrames 1724 initialState).currentState = TRUCKS_LEAVING ∧
    (run world0 secondFrames 1724 initialState).truck1 = ⟨403 / 2, true, false, true⟩ ∧
    (run world0 secondFrames 1724 initialState).truck2 = ⟨503 / 2, true, false, true⟩ := by
  have h := (core_eq_iff _ _).1 ((run_secondFrames_core 1724).trans coreRun_seconds.2.2.2.1)
  exact ⟨h.1, h.2.2.2.1, h.2.2.2.2⟩

/-! ## Binary32 rounding of the leaving step -/

/-- C1. For every state and every frame (any `deltaTime`, however large), the
stage after `updateSimulation` is the stage before or the enumerator right
after it: it never decreases and at most one transition fires per call. -/
theorem updateSimulation_stage_same_or_next (w : World) (s : State) (f : Frame) :
    (updateSimulation w s f).currentState.toNat = s.currentState.toNat ∨
      (updateSimulation w s f).currentState.toNat = s.currentState.toNat + 1 := by
  rw [updateSimulation_currentState]
  unfold State.stageAfter nextStage
  cases s.currentState <;> simp [SimState.toNat] <;> split_ifs <;> simp [SimState.toNat]

/-! ## C2: the scripted run -/

/-- C2. From the initial state, calls that bring `simTime` to 0, 3.1, 6.1 and
9.1 leave the stage at `NORMAL`, then move it to `FIRE_START`, `ALARM`,
`HUMANS_ARRIVE`; if `a` is a state in that stage and at that time with
`humanPosition ≤ 350`, the call that brings `simTime` to 12.1 moves it to
`FIREFIGHTERS_ARRIVE`; if `b` is a state in that stage and at that time with
both trucks arrived, the calls that bring `simTime` to 15.1, 25.1 and 28.1
move it to `EXTINGUISHING`, `ALL_CLEAR`, `TRUCKS_LEAVING`. -/
theorem scripted_run_stages (w : World) (f0 f1 f2 f3 f4 f5 f6 f7 : Frame) (a b : State)
    (h0 : f0.deltaTime = 0) (h1 : f1.deltaTime = 31 / 10) (h2 : f2.deltaTime = 3)
    (h3 : f3.deltaTime = 3) (h4 : f4.deltaTime = 3) (h5 : f5.deltaTime = 3)
    (h6 : f6.deltaTime = 10) (h7 : f7.deltaTime = 3)
    (ha : a.currentState =
        (updateSimulation w (updateSimulation w (updateSimulation w
          (updateSimulation w initialState f0) f1) f2) f3).currentState)
    (hat : a.simTime =
        (updateSimulation w (updateSimulation w (updateSimulation w
          (updateSimulation w initialState f0) f1) f2) f3).simTime)
    (hah : a.humanPosition ≤ 350)
    (hb : b.currentState = (updateSimulation w a f4).currentState)
    (hbt : b.simTime = (updateSimulation w a f4).simTime)
    (hb1 : b.truck1.arrived = true) (hb2 : b.truck2.arrived = true) :
    (updateSimulation w initialState f0).currentState = NORMAL ∧
    (updateSimulation w (updateSimulation w initialState f0) f1).currentState = FIRE_START ∧
    (updateSimulation w (updateSimulation w (updateSimulation w initialState f0) f1)
      f2).currentState = ALARM ∧
    (updateSimulation w (updateSimulation w (updateSimulation w
      (updateSimulation w initialState f0) f1) f2) f3).currentState = HUMANS_ARRIVE ∧
    (updateSimulation w a f4).currentState = FIREFIGHTERS_ARRIVE ∧
    (updateSimulation w b f5).currentState = EXTINGUISHING ∧
    (updateSimulation w (updateSimulation w b f5) f6).currentState = ALL_CLEAR ∧
    (updateSimulation w (updateSimulation w (updateSimulation w b f5) f6) f7).currentState =
      TRUCKS_LEAVING := by
  have e0 : (updateSimulation w initialState f0).currentState = NORMAL := by
    simp [updateSimulation_currentState, State.stageAfter, nextStage, initialState, h0]
  have t0 : (updateSimulation w initialState f0).simTime = 0 := by
    simp [updateSimulation_simTime, initialState, h0]
  have e1 : (updateSimulation w (updateSimulation w initialState f0) f1).currentState =
      FIRE_START := by
    rw [updateSimulation_currentState]
    simp [State.stageAfter, nextStage, e0, t0, h1]; norm_num
  have t1 : (updateSimulation w (updateSimulation w initialState f0) f1).simTime = 31 / 10 := by
    rw [updateSimulation_simTime, t0, h1]; norm_num
  have e2 : (updateSimulation w (updateSimulation w (updateSimulation w initialState f0) f1)
      f2).currentState = ALARM := by
    rw [updateSimulation_currentState]
    simp [State.stageAfter, nextStage, e1, t1, h2]; norm_num
  have t2 : (updateSimulation w (updateSimulation w (updateSimulation w initialState f0) f1)
      f2).simTime = 61 / 10 := by
    rw [updateSimulation_simTime, t1, h2]; norm_num
  have e3 : (updateSimulation w (updateSimulation w (updateSimulation w
      (updateSimulation w initialState f0) f1) f2) f3).currentState = HUMANS_ARRIVE := by
    rw [updateSimulation_currentState]
    simp [State.stageAfter, nextStage, e2, t2, h3]; norm_num
  have t3 : (updateSimulation w (updateSimulation w (updateSimulation w
      (updateSimulation w initialState f0) f1) f2) f3).simTime = 91 / 10 := by
    rw [updateSimulation_simTime, t2, h3]; norm_num
  rw [e3] at ha
  rw [t3] at hat
  have e4 : (updateSimulation w a f4).currentState = FIREFIGHTERS_ARRIVE := by
    rw [updateSimulation_currentState]
    simp [State.stageAfter, nextStage, ha, hat, h4, hah]; norm_num
  have t4 : (updateSimulation w a f4).simTime = 121 / 10 := by
    rw [updateSimulation_simTime, hat, h4]; norm_num
  rw [e4] at hb
  rw [t4] at hbt
  have e5 : (updateSimulation w b f5).currentState = EXTINGUISHING := by
    rw [updateSimulation_currentState]
    simp [State.stageAfter, nextStage, hb, hbt, h5, hb1, hb2]; norm_num
  have t5 : (updateSimulation w b f5).simTime = 151 / 10 := by
    rw [updateSimulation_simTime, hbt, h5]; norm_num
  have e6 : (updateSimulation w (updateSimulation w b f5) f6).currentState = ALL_CLEAR := by
    rw [updateSimulation_currentState]
    simp [State.stageAfter, nextStage, e5, t5, h6]; norm_num
  have t6 : (updateSimulation w (updateSimulation w b f5) f6).simTime = 251 / 10 := by
    rw [updateSimulation_simTime, t5, h6]; norm_num
  have e7 : (updateSimulation w (updateSimulation w (updateSimulation w b f5) f6)
      f7).currentState = TRUCKS_LEAVING := by
    rw [updateSimulation_currentState]
    simp [State.stageAfter, nextStage, e6, t6, h7]; norm_num
  exact ⟨e0, e1, e2, e3, e4, e5, e6, e7⟩

/-- C2 on states the program reaches: the humans are brought to 350 and the
trucks to their targets by calls during which no time passes. -/
theorem scripted_run_stages_witness :
    scriptHumansIn.humanPosition ≤ 350 ∧
    scriptTrucksIn.truck1.arrived = true ∧ scriptTrucksIn.truck2.arrived = true ∧
    (updateSimulation world0 initialState (silentFrame 0)).currentState = NORMAL ∧
    (updateSimulation world0 (updateSimulation world0 initialState (silentFrame 0))
      (silentFrame (31 / 10))).currentState = FIRE_START ∧
    (updateSimulation world0 (updateSimulation world0
      (updateSimulation world0 initialState (silentFrame 0)) (silentFrame (31 / 10)))
      (silentFrame 3)).currentState = ALARM ∧
    scriptAlarmed.currentState = HUMANS_ARRIVE ∧
    (updateSimulation world0 scriptHumansIn (silentFrame 3)).currentState =
      FIREFIGHTERS_ARRIVE ∧
    (updateSimulation world0 scriptTrucksIn (silentFrame 3)).currentState = EXTINGUISHING ∧
    (updateSimulation world0 (updateSimulation world0 scriptTrucksIn (silentFrame 3))
      (silentFrame 10)).currentState = ALL_CLEAR ∧
    (updateSimulation world0 (updateSimulation world0
      (updateSimulation world0 scriptTrucksIn (silentFrame 3)) (silentFrame 10))
      (silentFrame 3)).currentState = TRUCKS_LEAVING := by
  have hzero : ∀ n, (zeroFrames n).deltaTime = 0 := fun _ => rfl
  -- the state after the first four calls
  have a0 : scriptAlarmed.currentState = HUMANS_ARRIVE ∧ scriptAlarmed.simTime = 91 / 10 ∧
      scriptAlarmed.humanPosition = 1599 / 2 := by
    decide!
  have r0 : Reachable world0 scriptAlarmed :=
    Reachable.step _ _ (Reachable.step _ _ (Reachable.step _ _ (Reachable.step _ _
      Reachable.init)))
  -- the humans walk in while the clock stands at 9.1
  have idleA := run_idle world0 zeroFrames scriptAlarmed hzero
    (by
      intro hp a1 a2
      rw [a0.1, a0.2.1]
      simp [nextStage]
      norm_num)
  have ha : scriptHumansIn.currentState = scriptAlarmed.currentState := (idleA 899).1
  have hat : scriptHumansIn.simTime = scriptAlarmed.simTime := (idleA 899).2
  have hah : scriptHumansIn.humanPosition ≤ 350 := by
    refine le_trans (run_humans world0 zeroFrames scriptAlarmed 899
      (fun k _ => by rw [(idleA k).1]; exact a0.1)) (max_le (le_refl _) ?_)
    rw [a0.2.2]
    norm_num
  have rA : Reachable world0 scriptHumansIn := reachable_run_from _ _ _ r0 _
  -- the call that brings the clock to 12.1
  have b0 : (updateSimulation world0 scriptHumansIn (silentFrame 3)).currentState =
        FIREFIGHTERS_ARRIVE ∧
      (updateSimulation world0 scriptHumansIn (silentFrame 3)).simTime = 121 / 10 := by
    rw [updateSimulation_currentState, updateSimulation_simTime, State.stageAfter, ha, hat,
      a0.1, a0.2.1]
    have : (silentFrame 3).deltaTime = 3 := rfl
    rw [this]
    constructor
    · simp [nextStage, hah]; norm_num
    · norm_num
  have rB0 : Reachable world0 (updateSimulation world0 scriptHumansIn (silentFrame 3)) :=
    Reachable.step _ _ rA
  -- the trucks drive in while the clock stands at 12.1
  have idleB := run_idle world0 zeroFrames
    (updateSimulation world0 scriptHumansIn (silentFrame 3)) hzero
    (by
      intro hp a1 a2
      rw [b0.1, b0.2]
      simp [nextStage]
      norm_num)
  have hb : scriptTrucksIn.currentState =
      (updateSimulation world0 scriptHumansIn (silentFrame 3)).currentState := (idleB 875).1
  have hbt : scriptTrucksIn.simTime =
      (updateSimulation world0 scriptHumansIn (silentFrame 3)).simTime := (idleB 875).2
  have hb12 := run_trucks_arrived world0 zeroFrames
    (updateSimulation world0 scriptHumansIn (silentFrame 3)) rB0 875 (le_refl _)
    (fun k _ => by rw [(idleB k).1]; exact b0.1)
  have hb1 : scriptTrucksIn.truck1.arrived = true := by
    unfold scriptTrucksIn; exact hb12.1
  have hb2 : scriptTrucksIn.truck2.arrived = true := by
    unfold scriptTrucksIn; exact hb12.2
  exact ⟨hah, hb1, hb2,
    scripted_run_stages world0 (silentFrame 0) (silentFrame (31 / 10)) (silentFrame 3)
      (silentFrame 3) (silentFrame 3) (silentFrame 3) (silentFrame 10) (silentFrame 3)
      scriptHumansIn scriptTrucksIn rfl rfl rfl rfl rfl rfl rfl rfl ha hat hah hb hbt hb1 hb2⟩

/-! ## C3: the burning window -/

/-- C3. In every reachable state `burningWindow` is `-1` exactly in the stage
`NORMAL` and lies in `[0, 15)` otherwise; a call made from a stage other than
`NORMAL` leaves it unchanged, and a call changes it only when it moves the
stage from `NORMAL` to `FIRE_START`. -/
theorem burningWindow_assigned_once (w : World) (s : State) (f : Frame) (h : Reachable w s) :
    (s.burningWindow = -1 ↔ s.currentState = NORMAL) ∧
    (s.currentState ≠ NORMAL → 0 ≤ s.burningWindow ∧ s.burningWindow < 15) ∧
    (s.currentState ≠ NORMAL → (updateSimulation w s f).burningWindow = s.burningWindow) ∧
    ((updateSimulation w s f).burningWindow ≠ s.burningWindow →
      s.currentState = NORMAL ∧ (updateSimulation w s f).currentState = FIRE_START) := by
  have hi := h.inv
  refine ⟨⟨fun hb => ?_, hi.window_unset⟩, hi.window_set, fun hc => ?_, fun hne => ?_⟩
  · by_contra hc
    have := (hi.window_set hc).1
    omega
  · rw [updateSimulation_burningWindow, if_neg (fun hh => hc hh.1)]
  · rw [updateSimulation_burningWindow] at hne
    rw [updateSimulation_currentState]
    split_ifs at hne with hh
    · refine ⟨hh.1, ?_⟩
      simp [State.stageAfter, nextStage, hh.1, hh.2]
    · exact absurd rfl hne

/-- C3 at the state after one frame of four seconds, in the stage
`FIRE_START`. -/
theorem burningWindow_assigned_once_witness :
    Reachable world0 (updateSimulation world0 initialState (silentFrame 4)) ∧
    (updateSimulation world0 initialState (silentFrame 4)).currentState ≠ NORMAL ∧
    (updateSimulation world0 (updateSimulation world0 initialState (silentFrame 4))
      (silentFrame 1)).burningWindow =
      (updateSimulation world0 initialState (silentFrame 4)).burningWindow :=
  have hr : Reachable world0 (updateSimulation world0 initialState (silentFrame 4)) :=
    Reachable.step _ _ Reachable.init
  have hc : (updateSimulation world0 initialState (silentFrame 4)).currentState ≠ NORMAL := by
    decide!
  ⟨hr, hc, (burningWindow_assigned_once world0 _ (silentFrame 1) hr).2.2.1 hc⟩

/-! ## C4: spraying -/

/-- C4, amended. In every reachable state a truck sprays only if the stage is
`EXTINGUISHING` or `ALL_CLEAR` and the truck has arrived, and in the stage
`TRUCKS_LEAVING` neither truck sprays. -/
theorem spraying_only_after_arrival (w : World) (s : State) (h : Reachable w s) :
    (s.truck1.spraying = true →
      (s.currentState = EXTINGUISHING ∨ s.currentState = ALL_CLEAR) ∧
        s.truck1.arrived = true) ∧
    (s.truck2.spraying = true →
      (s.currentState = EXTINGUISHING ∨ s.currentState = ALL_CLEAR) ∧
        s.truck2.arrived = true) ∧
    (s.currentState = TRUCKS_LEAVING →
      s.truck1.spraying = false ∧ s.truck2.spraying = false) := by
  have hi := h.inv
  have late : (s.currentState = EXTINGUISHING ∨ s.currentState = ALL_CLEAR) →
      5 ≤ s.currentState.toNat := by
    rintro (e | e) <;> rw [e] <;> decide
  refine ⟨fun hs => ?_, fun hs => ?_, fun hc => ⟨?_, ?_⟩⟩
  · have hc := hi.truck1.spraying_iff.1 hs
    exact ⟨hc, hi.truck1.arrived_of_late (late hc)⟩
  · have hc := hi.truck2.spraying_iff.1 hs
    exact ⟨hc, hi.truck2.arrived_of_late (late hc)⟩
  · exact (hi.truck1.2.2.2 hc).2.1
  · exact (hi.truck2.2.2.2 hc).2.1

/-- C4, amended, at frame 1722 of the worked run, where both trucks spray. -/
theorem spraying_only_after_arrival_witness :
    Reachable world0 (run world0 secondFrames 1722 initialState) ∧
    (run world0 secondFrames 1722 initialState).truck1.spraying = true ∧
    ((run world0 secondFrames 1722 initialState).currentState = EXTINGUISHING ∨
      (run world0 secondFrames 1722 initialState).currentState = ALL_CLEAR) ∧
    (run world0 secondFrames 1722 initialState).truck1.arrived = true :=
  have hs : (run world0 secondFrames 1722 initialState).truck1.spraying = true :=
    congrArg FireTruck.spraying run_seconds_1722.2.1
  ⟨reachable_run _ _ _, hs,
    (spraying_only_after_arrival world0 _ (reachable_run _ _ _)).1 hs⟩

/-- C4 as stated fails: after 1723 frames of one second the stage is
`ALL_CLEAR`, not `EXTINGUISHING`, and truck 1 (arrived) is still spraying. -/
theorem spraying_in_all_clear :
    Reachable world0 (run world0 secondFrames 1723 initialState) ∧
    (run world0 secondFrames 1723 initialState).currentState = ALL_CLEAR ∧
    (run world0 secondFrames 1723 initialState).truck1.spraying = true ∧
    (run world0 secondFrames 1723 initialState).truck1.arrived = true ∧
    ¬ ((run world0 secondFrames 1723 initialState).truck1.spraying = true →
      (run world0 secondFrames 1723 initialState).currentState = EXTINGUISHING ∧
        (run world0 secondFrames 1723 initialState).truck1.arrived = true) := by
  have h1 : (run world0 secondFrames 1723 initialState).currentState = ALL_CLEAR :=
    run_seconds_1723.1
  have h2 : (run world0 secondFrames 1723 initialState).truck1.spraying = true :=
    congrArg FireTruck.spraying run_seconds_1723.2.1
  have h3 : (run world0 secondFrames 1723 initialState).truck1.arrived = true :=
    congrArg FireTruck.arrived run_seconds_1723.2.1
  refine ⟨reachable_run _ _ _, h1, h2, h3, fun hh => ?_⟩
  have := (hh h2).1
  rw [h1] at this
  exact absurd this (by decide)

/-! ## C5 and C6: where the trucks are, and leaving -/

/-- C5. In every reachable state, with exact rational positions: truck 1 is at
`x ≤ 200` while it has not arrived; once arrived it is at `x ≥ 200`, and
exactly at 200 while it is not leaving; and a call made while it is leaving,
or after which it is leaving, moves it by exactly `3/2` to the right. -/
theorem truck1_position (w : World) (s : State) (f : Frame) (h : Reachable w s) :
    (s.truck1.arrived = false → s.truck1.x ≤ 200) ∧
    (s.truck1.arrived = true → 200 ≤ s.truck1.x) ∧
    (s.truck1.arrived = true → s.truck1.leaving = false → s.truck1.x = 200) ∧
    (s.truck1.leaving = true →
      (updateSimulation w s f).truck1.x = s.truck1.x + 3 / 2 ∧
        s.truck1.x < (updateSimulation w s f).truck1.x) ∧
    ((updateSimulation w s f).truck1.leaving = true →
      (updateSimulation w s f).truck1.x = s.truck1.x + 3 / 2) := by
  have hi := h.inv
  have hp := hi.truck1.position (by norm_num)
  have key : (updateSimulation w s f).truck1.leaving = true →
      (updateSimulation w s f).truck1.x = s.truck1.x + 3 / 2 := by
    intro hl
    have hc := (inv_updateSimulation w s f hi).truck1.leaving_iff.1 hl
    rw [updateSimulation_currentState] at hc
    rw [updateSimulation_truck1, hc, truckStep_leaving]
  have stay : s.truck1.leaving = true → (updateSimulation w s f).truck1.leaving = true := by
    intro hl
    have hc := hi.truck1.leaving_iff.1 hl
    rw [updateSimulation_truck1, State.stageAfter, hc, nextStage_leaving, truckStep_leaving]
  refine ⟨fun ha => le_of_lt (hp.1 ha), hp.2.1, hp.2.2, fun hl => ?_, key⟩
  have e := key (stay hl)
  exact ⟨e, by rw [e]; linarith⟩

/-- C5 at frame 1724 of the worked run, where truck 1 is leaving. -/
theorem truck1_position_witness :
    Reachable world0 (run world0 secondFrames 1724 initialState) ∧
    (run world0 secondFrames 1724 initialState).truck1.leaving = true ∧
    (updateSimulation world0 (run world0 secondFrames 1724 initialState)
        (silentFrame 1)).truck1.x =
      (run world0 secondFrames 1724 initialState).truck1.x + 3 / 2 ∧
    (run world0 secondFrames 1724 initialState).truck1.x <
      (updateSimulation world0 (run world0 secondFrames 1724 initialState)
        (silentFrame 1)).truck1.x :=
  have hl : (run world0 secondFrames 1724 initialState).truck1.leaving = true :=
    congrArg FireTruck.leaving run_seconds_1724.2.1
  ⟨reachable_run _ _ _, hl,
    (truck1_position world0 _ (silentFrame 1) (reachable_run _ _ _)).2.2.2.1 hl⟩

/-- C7. For a state in which `burningWindow` is set unless the stage is
`NORMAL` (every reachable state is one), whatever its particle list: if the
stage after the call is in `[FIRE_START, ALL_CLEAR)`, the list after the
call is the particles that had `life > 0` before it, in their order, each
with `x` moved by `sin (simTime * 2 + x) * 0.5 * deltaTime * 50` (at the
advanced `simTime`), `y` moved by `velocity * deltaTime * 50`, `life` lowered
by `0.5 * deltaTime` and nothing else changed, followed by exactly 5 new
particles of the burning window (`life` in `[1/2, 1)`, `velocity` in
`[1/2, 3/2)`, `size` in `[2, 4)`), so it has `|{p : p.life > 0}| + 5`
elements; otherwise the list is the one before the call. -/
theorem particles_after_call (w : World) (s : State) (f : Frame)
    (hbw : s.currentState ≠ NORMAL → s.burningWindow ≠ -1) :
    (FIRE_START ≤ (updateSimulation w s f).currentState ∧
        (updateSimulation w s f).currentState < ALL_CLEAR →
      ∃ spawned : List FireParticle,
        spawned.length = 5 ∧
        (∀ p ∈ spawned,
          p.windowIndex = (updateSimulation w s f).burningWindow ∧
          1 / 2 ≤ p.life ∧ p.life < 1 ∧ 1 / 2 ≤ p.velocity ∧ p.velocity < 3 / 2 ∧
          2 ≤ p.size ∧ p.size < 4) ∧
        (updateSimulation w s f).fireParticles =
          (s.fireParticles.filter (fun p => decide (0 < p.life))).map
            (fun p =>
              { x := p.x + w.sin ((s.simTime + f.deltaTime) * 2 + p.x) * (1 / 2) *
                  f.deltaTime * 50
                y := p.y + p.velocity * f.deltaTime * 50
                velocity := p.velocity
                life := p.life - 1 / 2 * f.deltaTime
                size := p.size
                windowIndex := p.windowIndex }) ++ spawned ∧
        (updateSimulation w s f).fireParticles.length =
          s.fireParticles.countP (fun p => decide (0 < p.life)) + 5) ∧
    (¬ (FIRE_START ≤ (updateSimulation w s f).currentState ∧
        (updateSimulation w s f).currentState < ALL_CLEAR) →
      (updateSimulation w s f).fireParticles = s.fireParticles) := by
  obtain ⟨sp, p1, p2, p3⟩ := updateSimulation_fireParticles w s f
  rw [updateSimulation_currentState]
  constructor
  · intro hg
    have hset : (updateSimulation w s f).burningWindow ≠ -1 := by
      rw [updateSimulation_burningWindow]
      split_ifs with h
      · omega
      · apply hbw
        intro hn
        have : s.stageAfter f = NORMAL := by
          rw [State.stageAfter, nextStage, hn]
          simp only [not_and] at h
          simp [h hn]
        rw [this] at hg
        exact absurd hg.1 (by decide)
    rw [if_pos hg] at p1
    rw [if_pos ⟨hg.1, hg.2, hset⟩] at p3
    refine ⟨sp, p3, ?_, p1, ?_⟩
    · intro p hp
      obtain ⟨x, y, k, rfl⟩ := p2 p hp
      exact newParticle_fields w x y _ k
    · rw [p1, List.length_append, List.length_map, p3, List.countP_eq_length_filter]
  · intro hg
    rw [if_neg hg] at p1
    rw [if_neg (fun h => hg ⟨h.1, h.2.1⟩)] at p3
    rw [p1, List.length_eq_zero.1 p3, List.append_nil]

/-- C7 at the first frame of the fire in `world1`: the call that entered
`FIRE_START` spawned five particles; a call of a tenth of a second moves and
ages them (the first goes from `y = 7133/20`, `life = 159/200` to
`y = 7229/20`, `life = 149/200`, and its `x` moves too) and spawns five
more. -/
theorem particles_after_call_witness :
    ((updateSimulation world1 initialState (silentFrame 4)).currentState ≠ NORMAL →
      (updateSimulation world1 initialState (silentFrame 4)).burningWindow ≠ -1) ∧
    (updateSimulation world1 initialState (silentFrame 4)).fireParticles.length = 5 ∧
    (updateSimulation world1 initialState (silentFrame 4)).fireParticles[0]? =
      some ⟨2041 / 6, 7133 / 20, 24 / 25, 159 / 200, 12 / 5, 7⟩ ∧
    (updateSimulation world1 (updateSimulation world1 initialState (silentFrame 4))
      (silentFrame (1 / 10))).fireParticles[0]? =
      some ⟨222931501291 / 655345806, 7229 / 20, 24 / 25, 149 / 200, 12 / 5, 7⟩ ∧
    (updateSimulation world1 (updateSimulation world1 initialState (silentFrame 4))
      (silentFrame (1 / 10))).fireParticles.length = 10 := by
  have hbw : (updateSimulation world1 initialState (silentFrame 4)).currentState ≠ NORMAL →
      (updateSimulation world1 initialState (silentFrame 4)).burningWindow ≠ -1 := by
    decide!
  have h := (particles_after_call world1 (updateSimulation world1 initialState (silentFrame 4))
    (silentFrame (1 / 10)) hbw).1 (by decide!)
  obtain ⟨sp, _, _, _, h4⟩ := h
  refine ⟨hbw, by decide!, by decide!, by decide!, ?_⟩
  rw [h4]
  decide!

/-- C8, amended. A particle with `life > 0` present when
`updateFireParticles` is called with `deltaTime = d ≥ 0` is kept, at the
place it has among the particles with `life > 0`, and its life after the call
is `life - d/2`: that is at most its life before, and strictly less when
`d > 0`. -/
theorem particle_life_after (w : World) (s : State) (d : ℚ) (i : Nat) (p : FireParticle)
    (hd : 0 ≤ d)
    (hp : (s.fireParticles.filter (fun p => decide (0 < p.life)))[i]? = some p) :
    0 < p.life ∧
    (updateFireParticles w s d).fireParticles[i]? = some (ageParticle w s.simTime d p) ∧
    (ageParticle w s.simTime d p).life = p.life - 1 / 2 * d ∧
    (ageParticle w s.simTime d p).life ≤ p.life ∧
    (0 < d → (ageParticle w s.simTime d p).life < p.life) := by
  obtain ⟨sp, p1, _, _⟩ := updateFireParticles_fireParticles w s d
  have hmem := List.getElem?_mem hp
  have hlife : 0 < p.life := by simpa using (List.mem_filter.1 hmem).2
  refine ⟨hlife, ?_, rfl, ?_, fun h => ?_⟩
  · have hi : i < (s.fireParticles.filter (fun p => decide (0 < p.life))).length :=
      (List.getElem?_eq_some.1 hp).1
    rw [p1, List.getElem?_append_left (by rw [List.length_map]; exact hi), List.getElem?_map, hp]
    rfl
  · show p.life - 1 / 2 * d ≤ p.life
    linarith
  · show p.life - 1 / 2 * d < p.life
    linarith

/-- C8 at the first particle of the fire, aged by a frame of a tenth of a
second. -/
theorem particle_life_after_witness :
    (0 : ℚ) ≤ 1 / 10 ∧
    ((updateSimulation world0 initialState (silentFrame 4)).fireParticles.filter
      (fun p => decide (0 < p.life)))[0]? =
        some ⟨20371 / 60, 7107 / 20, 57 / 100, 107 / 200, 17 / 5, 7⟩ ∧
    (ageParticle world0 (updateSimulation world0 initialState (silentFrame 4)).simTime (1 / 10)
      ⟨20371 / 60, 7107 / 20, 57 / 100, 107 / 200, 17 / 5, 7⟩).life < 107 / 200 :=
  ⟨by norm_num, by decide!,
    (particle_life_after world0 (updateSimulation world0 initialState (silentFrame 4)) (1 / 10) 0
      ⟨20371 / 60, 7107 / 20, 57 / 100, 107 / 200, 17 / 5, 7⟩ (by norm_num)
      (by decide!)).2.2.2.2 (by norm_num)⟩

/-- C8 as stated fails for `deltaTime = 0`, which is non-negative: the first
particle of the fire has life `107/200` before the call and `107/200` after
it, both when `updateFireParticles` is called alone and when
`updateSimulation` calls it. -/
theorem particle_life_unchanged_at_zero :
    (0 : ℚ) ≤ 0 ∧
    ((updateSimulation world0 initialState (silentFrame 4)).fireParticles[0]?).map
      FireParticle.life = some (107 / 200) ∧
    ((updateFireParticles world0 (updateSimulation world0 initialState (silentFrame 4))
      0).fireParticles[0]?).map FireParticle.life = some (107 / 200) ∧
    ((updateSimulation world0 (updateSimulation world0 initialState (silentFrame 4))
      (silentFrame 0)).fireParticles[0]?).map FireParticle.life = some (107 / 200) ∧
    ¬ ((107 : ℚ) / 200 < 107 / 200) := by
  refine ⟨le_refl _, ?_, ?_, ?_, lt_irrefl _⟩ <;> decide!

/-! ## C9: the humans -/

/-- C9. For every state `t`, `updateHumans` sets `humanPosition` to
`max 350 (humanPosition - 1/2)` in the stage `HUMANS_ARRIVE` and leaves it
unchanged in every other stage; and in every reachable state `s`,
`350 ≤ humanPosition ≤ 800` and a call does not increase `humanPosition`. -/
theorem humans_walk_in (w : World) (s t : State) (f : Frame) (d : ℚ) (h : Reachable w s) :
    ((updateHumans t d).humanPosition =
      if t.currentState = HUMANS_ARRIVE then max 350 (t.humanPosition - 1 / 2)
      else t.humanPosition) ∧
    350 ≤ s.humanPosition ∧ s.humanPosition ≤ 800 ∧
    (updateSimulation w s f).humanPosition ≤ s.humanPosition := by
  have hi := h.inv
  refine ⟨updateHumans_humanPosition t d, hi.humans_lo, hi.humans_hi, ?_⟩
  rw [updateSimulation_humanPosition]
  split_ifs
  · exact max_le hi.humans_lo (by linarith)
  · exact le_refl _

/-- C9 at frame 100 of the worked run, where the humans are walking in. -/
theorem humans_walk_in_witness :
    Reachable world0 (run world0 secondFrames 100 initialState) ∧
    (run world0 secondFrames 100 initialState).humanPosition = 1509 / 2 ∧
    (updateSimulation world0 (run world0 secondFrames 100 initialState)
        (silentFrame 1)).humanPosition ≤
      (run world0 secondFrames 100 initialState).humanPosition :=
  ⟨reachable_run _ _ _, run_seconds_100.2,
    (humans_walk_in world0 _ initialState (silentFrame 1) 1 (reachable_run _ _ _)).2.2.2⟩

/-! ## C10: the stage machine does not stall -/

/-- C10. Whatever `rand()` returns and whether or not the cues can be
started, with a constant `deltaTime = d > 0` per frame the run from the
initial state reaches the stage `TRUCKS_LEAVING` after some number of calls;
on the way there is a frame in the stage `HUMANS_ARRIVE` with
`humanPosition = 350` and a frame in the stage `FIREFIGHTERS_ARRIVE` with
both trucks arrived; and at every frame truck 2 has left its starting place
`-150` only if truck 1 is past 150. -/
theorem stage_machine_reaches_the_end (w : World) (frames : Nat → Frame) (d : ℚ) (hd0 : 0 < d)
    (hd : ∀ i, (frames i).deltaTime = d) :
    (∃ n, (run w frames n initialState).currentState = TRUCKS_LEAVING) ∧
    (∃ n, (run w frames n initialState).currentState = HUMANS_ARRIVE ∧
      (run w frames n initialState).humanPosition = 350) ∧
    (∃ n, (run w frames n initialState).currentState = FIREFIGHTERS_ARRIVE ∧
      (run w frames n initialState).truck1.arrived = true ∧
      (run w frames n initialState).truck2.arrived = true) ∧
    (∀ n, (run w frames n initialState).truck2.x ≠ -150 →
      150 < (run w frames n initialState).truck1.x) := by
  have hσ := run_succ w frames initialState
  have h0 : Inv (run w frames 0 initialState) := inv_initialState
  have next := fun cs cs2 hn m hm =>
    traj_next w (fun n => run w frames n initialState) frames hσ h0 d hd0 hd cs cs2 hn m hm
  obtain ⟨j0, _, _, e0⟩ := next NORMAL FIRE_START rfl 0 rfl
  obtain ⟨j1, _, _, e1⟩ := next FIRE_START ALARM rfl _ e0
  obtain ⟨j2, _, _, e2⟩ := next ALARM HUMANS_ARRIVE rfl _ e1
  obtain ⟨j3, _, b3, e3⟩ := next HUMANS_ARRIVE FIREFIGHTERS_ARRIVE rfl _ e2
  obtain ⟨j4, _, b4, e4⟩ := next FIREFIGHTERS_ARRIVE EXTINGUISHING rfl _ e3
  obtain ⟨j5, _, _, e5⟩ := next EXTINGUISHING ALL_CLEAR rfl _ e4
  obtain ⟨j6, _, _, e6⟩ := next ALL_CLEAR TRUCKS_LEAVING rfl _ e5
  refine ⟨⟨j6 + 1, e6⟩, ⟨j3, b3, ?_⟩, ⟨j4, b4, ?_⟩, fun n => ?_⟩
  · have hs := traj_stage w (fun n => run w frames n initialState) frames hσ j3
    simp only [] at hs b3 e3
    rw [e3, b3] at hs
    have hle : (run w frames j3 initialState).humanPosition ≤ 350 := by
      by_contra hgt
      unfold nextStage at hs
      simp [hgt] at hs
    exact le_antisymm hle (reachable_run w frames j3).inv.humans_lo
  · have hs := traj_stage w (fun n => run w frames n initialState) frames hσ j4
    simp only [] at hs b4 e4
    rw [e4] at hs
    exact nextStage_extinguishing _ _ _ _ _ b4 hs.symm
  · exact (reachable_run w frames n).inv.convoy

/-- C10 for one second per frame, with no cue available. -/
theorem stage_machine_reaches_the_end_witness :
    (0 : ℚ) < 1 ∧ (∀ i, (secondFrames i).deltaTime = 1) ∧
    ∃ n, (run world0 secondFrames n initialState).currentState = TRUCKS_LEAVING :=
  ⟨one_pos, fun _ => rfl,
    (stage_machine_reaches_the_end world0 secondFrames 1 one_pos (fun _ => rfl)).1⟩

/-! ## C11: the anchor, the hose target and the burning window -/

/-- What `drawBuilding` draws depends on the state through `currentState` and
`burningWindow` only. -/
theorem drawBuilding_congr (s t : State) (index : Int) (x width height : ℚ)
    (floors windowsPerFloor : Int) (h1 : s.currentState = t.currentState)
    (h2 : s.burningWindow = t.burningWindow) :
    drawBuilding s index x width height floors windowsPerFloor =
      drawBuilding t index x width height floors windowsPerFloor := by
  unfold drawBuilding
  rw [h1, h2]

/-- The 25 windows of the main building, for each stage and each burning
window `b` in `[0, 15)`: one window has `floor * 5 + col = b`, it is the one
at `(b div 5, b mod 5)` with centre `claimedAnchor b`, and it is the one with
the fire glow when the stage is in `[FIRE_START, ALL_CLEAR)`, when no other
has it either. -/
theorem main_building_windows (cs : SimState) (b : Int) (h0 : 0 ≤ b) (h15 : b < 15) :
    (drawBuilding { initialState with currentState := cs, burningWindow := b }
        0 300 100 150 5 5).filter (fun win => decide (win.floor * 5 + win.col = b)) =
      [⟨b / 5, b % 5, decide (FIRE_START ≤ cs ∧ cs < ALL_CLEAR), (claimedAnchor b).1,
        (claimedAnchor b).2, 50 / 3, 15⟩] ∧
    (drawBuilding { initialState with currentState := cs, burningWindow := b }
        0 300 100 150 5 5).filter (fun win => win.isBurning) =
      if FIRE_START ≤ cs ∧ cs < ALL_CLEAR then
        [⟨b / 5, b % 5, true, (claimedAnchor b).1, (claimedAnchor b).2, 50 / 3, 15⟩]
      else [] := by
  interval_cases b <;> cases cs <;> decide!

/-- For `b` in `[0, 15)` the anchor computed with the truncating division and
remainder of C++ is the anchor as the claim writes it. -/
theorem anchor_eq_claimedAnchor (b : Int) (h0 : 0 ≤ b) (h15 : b < 15) :
    ((300 : ℚ) + (((Int.tmod b 5 : Int) : ℚ) + 1 / 2) * (100 / (((5 : Int) + 1 : Int) : ℚ)),
      (400 : ℚ) - (((Int.tdiv b 5 : Int) : ℚ) + 1 / 2) * (150 / 5)) = claimedAnchor b := by
  interval_cases b <;> decide!

/-- The particles of the spawn loop are built around the anchor of
`updateFireParticles`, which for a burning window in `[0, 15)` is the anchor
as the claim writes it. -/
theorem updateFireParticles_anchor (w : World) (s : State) (d : ℚ)
    (h0 : 0 ≤ s.burningWindow) (h15 : s.burningWindow < 15)
    (hf : FIRE_START ≤ s.currentState ∧ s.currentState < ALL_CLEAR) :
    (updateFireParticles w s d).fireParticles =
      (s.fireParticles.filter (fun p => decide (0 < p.life))).map (ageParticle w s.simTime d) ++
        (List.range 5).map (fun i =>
          newParticle w (claimedAnchor s.burningWindow).1 (claimedAnchor s.burningWindow).2
            s.burningWindow (s.randCalls + 5 * i)) := by
  have hne : s.burningWindow ≠ -1 := by omega
  have ha := anchor_eq_claimedAnchor s.burningWindow h0 h15
  unfold updateFireParticles
  simp only [alive_filter]
  rw [if_pos ⟨hf.1, hf.2, hne⟩, spawnLoop_fireParticles, ← ha]

/-- The hose of a spraying truck ends at the target of `drawFireTruck`, which
for a burning window in `[0, 15)` is the anchor as the claim writes it. -/
theorem drawFireTruck_target (s : State) (truck : FireTruck)
    (h0 : 0 ≤ s.burningWindow) (h15 : s.burningWindow < 15) (hs : truck.spraying = true) :
    drawFireTruck s truck =
      some ⟨truck.x + 30, 385, (claimedAnchor s.burningWindow).1,
        (claimedAnchor s.burningWindow).2⟩ := by
  have ha := anchor_eq_claimedAnchor s.burningWindow h0 h15
  unfold drawFireTruck
  rw [if_pos hs, ← ha]

/-- C11. For a burning window `b` in `[0, 15)`: among the windows that
`drawBuilding(0, 300, 100, 150, 5, 5)` draws exactly one, `win`, has
`floor * 5 + col = b`; it is the one at the only pair `(floor, col)` of the
grid with that index, `(b div 5, b mod 5)`; while the stage is in
`[FIRE_START, ALL_CLEAR)` it is the one window with the fire glow; and its
centre `(win.winX, win.winY)` is the anchor as the claim writes it, the
anchor around which `updateFireParticles` builds its five particles, and the
end of the hose `drawFireTruck` draws for a spraying truck. -/
theorem anchor_and_hose_at_burning_window (w : World) (s : State) (d : ℚ) (truck : FireTruck)
    (h0 : 0 ≤ s.burningWindow) (h15 : s.burningWindow < 15) :
    ∃ win : Window,
      (drawBuilding s 0 300 100 150 5 5).filter
        (fun v => decide (v.floor * 5 + v.col = s.burningWindow)) = [win] ∧
      (0 ≤ win.floor ∧ win.floor < 5 ∧ 0 ≤ win.col ∧ win.col < 5 ∧
        win.floor * 5 + win.col = s.burningWindow) ∧
      (∀ floor col : Int, 0 ≤ floor → floor < 5 → 0 ≤ col → col < 5 →
        floor * 5 + col = s.burningWindow → floor = win.floor ∧ col = win.col) ∧
      (FIRE_START ≤ s.currentState ∧ s.currentState < ALL_CLEAR →
        (drawBuilding s 0 300 100 150 5 5).filter (fun v => v.isBurning) = [win]) ∧
      (win.winX, win.winY) = claimedAnchor s.burningWindow ∧
      (FIRE_START ≤ s.currentState ∧ s.currentState < ALL_CLEAR →
        (updateFireParticles w s d).fireParticles =
          (s.fireParticles.filter (fun p => decide (0 < p.life))).map
            (ageParticle w s.simTime d) ++
          (List.range 5).map (fun i =>
            newParticle w win.winX win.winY s.burningWindow (s.randCalls + 5 * i))) ∧
      (truck.spraying = true →
        drawFireTruck s truck = some ⟨truck.x + 30, 385, win.winX, win.winY⟩) := by
  have hc := drawBuilding_congr s
    { initialState with currentState := s.currentState, burningWindow := s.burningWindow }
    0 300 100 150 5 5 rfl rfl
  obtain ⟨m1, m2⟩ := main_building_windows s.currentState s.burningWindow h0 h15
  refine ⟨⟨s.burningWindow / 5, s.burningWindow % 5,
    decide (FIRE_START ≤ s.currentState ∧ s.currentState < ALL_CLEAR),
    (claimedAnchor s.burningWindow).1, (claimedAnchor s.burningWindow).2, 50 / 3, 15⟩,
    ?_, ?_, ?_, ?_, rfl, ?_, ?_⟩
  · rw [hc]; exact m1
  · simp only; omega
  · intro floor col f0 f5 c0 c5 e
    simp only
    omega
  · intro hf
    rw [hc, m2, if_pos hf, decide_eq_true hf]
  · exact updateFireParticles_anchor w s d h0 h15
  · exact drawFireTruck_target s truck h0 h15

/-- C11 at the state after one frame of four seconds, in the stage
`FIRE_START` with burning window 7: the window at floor 1, column 2, centred
at `(1025/3, 355)`. -/
theorem anchor_and_hose_at_burning_window_witness :
    0 ≤ (updateSimulation world0 initialState (silentFrame 4)).burningWindow ∧
    (updateSimulation world0 initialState (silentFrame 4)).burningWindow < 15 ∧
    claimedAnchor (updateSimulation world0 initialState (silentFrame 4)).burningWindow =
      (1025 / 3, 355) ∧
    drawFireTruck (updateSimulation world0 initialState (silentFrame 4))
      ⟨200, true, true, false⟩ = some ⟨230, 385, 1025 / 3, 355⟩ ∧
    ∃ win : Window,
      (drawBuilding (updateSimulation world0 initialState (silentFrame 4))
        0 300 100 150 5 5).filter (fun v => v.isBurning) = [win] ∧
      (win.winX, win.winY) =
        claimedAnchor (updateSimulation world0 initialState (silentFrame 4)).burningWindow := by
  have h0 : 0 ≤ (updateSimulation world0 initialState (silentFrame 4)).burningWindow := by
    decide!
  have h15 : (updateSimulation world0 initialState (silentFrame 4)).burningWindow < 15 := by
    decide!
  obtain ⟨win, _, _, _, hb, hc, _, _⟩ :=
    anchor_and_hose_at_burning_window world0
      (updateSimulation world0 initialState (silentFrame 4)) (1 / 10) ⟨200, true, true, false⟩
      h0 h15
  exact ⟨h0, h15, by decide!, by decide!, win, hb (by decide!), hc⟩

end FireSim
